import Mathlib

/-!
# Storage quota and reclamation engine — shallow embedding

This file embeds the storage-management subsystem of the repository
(`backend/utils/storageManager.js`, `backend/controllers/storageController.js`)
in Lean 4 and proves the specified properties about it.

Modelling conventions:
* JavaScript numbers are modelled as `ℚ` (byte counts and ids, which are
  always integral, as `ℕ`).  The string produced by `Number.prototype.toFixed(2)`
  and read back with `parseFloat` is modelled exactly as rounding half-up to two
  decimal places (`toFixed2`).
* GridFS blob ids and Mongo record ids are modelled as `ℕ`.
* The database state (`DB`) carries the GridFS bucket contents, the `File`
  collection, a set of blob ids whose GridFS deletion raises
  (`BlobDeleteFailed` infrastructure failures), and a flag saying whether the
  GridFS bucket can be enumerated (`bucket.find` succeeding).
* Fallible operations return `Except String _`; thrown JS exceptions are
  `Except.error`.
* Display-only fields of result objects (`totalSizeMB`, `usagePercentMB`
  strings and the like) are not modelled; every field consulted by the code or
  by the specified properties is.
-/

/-- File conversion status, the `status` field of the `File` model:
`uploaded`, `processing`, `completed`, `failed`. -/
inductive FileStatus where
  | uploaded
  | processing
  | completed
  | failed
deriving DecidableEq, Repr

/-- One entry of a record's `outputFiles` array. -/
structure OutputFile where
  fileName : String
  fileSize : Nat
  gridfsFileId : Option Nat
  storedInGridFS : Bool
deriving DecidableEq, Repr

/-- A document of the `File` collection (the fields the storage subsystem reads). -/
structure FileRecord where
  _id : Nat
  originalName : String
  fileSize : Nat
  status : FileStatus
  gridfsInputFileId : Option Nat
  outputFiles : List OutputFile
  uploadedBy : Nat
  createdAt : Nat
  processingStartedAt : Option Nat
deriving DecidableEq, Repr

/-- A file held in the GridFS bucket (`_id`, `filename`, `length` in bytes). -/
structure GridFSFile where
  _id : Nat
  filename : String
  length : Nat
deriving DecidableEq, Repr

/-- The persistent state the storage subsystem acts on: the GridFS bucket,
the `File` collection, plus the failure model (which blob deletions raise,
and whether the bucket can be enumerated at all). -/
structure DB where
  gridfsFiles : List GridFSFile
  records : List FileRecord
  failingBlobIds : List Nat
  gridfsAvailable : Bool
deriving DecidableEq, Repr

/-- The `STORAGE_LIMITS` configuration object. -/
structure StorageLimits where
  MAX_STORAGE : Nat
  WARNING_THRESHOLD : ℚ
  CLEANUP_THRESHOLD : ℚ
  CRITICAL_THRESHOLD : ℚ
  TARGET_AFTER_CLEANUP : ℚ
deriving DecidableEq, Repr

/-- The source's hardcoded configuration: 512 MB capacity, thresholds
85% / 90% / 95%, cleanup target 70%. -/
def STORAGE_LIMITS : StorageLimits :=
  { MAX_STORAGE := 512 * 1024 * 1024
    WARNING_THRESHOLD := 85 / 100
    CLEANUP_THRESHOLD := 90 / 100
    CRITICAL_THRESHOLD := 95 / 100
    TARGET_AFTER_CLEANUP := 70 / 100 }

/-- `x.toFixed(2)` followed by `parseFloat`: round half-up to two decimals
(exact for the non-negative values arising here). -/
def toFixed2 (q : ℚ) : ℚ := (⌊q * 100 + 1 / 2⌋ : ℚ) / 100

/-- Total bytes currently held in the GridFS bucket (sum of `length` over
all files returned by `bucket.find({})`). -/
def totalGridFSSize (db : DB) : Nat := (db.gridfsFiles.map (·.length)).sum

/-- The statistics object produced by `getStorageStats`.  `usagePercent` is
the value a consumer obtains by `parseFloat(stats.usagePercent)`, i.e. the
raw percentage rounded to two decimals by `toFixed(2)`; `status` is computed
from the unrounded percentage. -/
structure StorageStats where
  totalSize : Nat
  usagePercent : ℚ
  fileCount : Nat
  available : Int
  status : String
deriving DecidableEq, Repr

/-- `getStorageStatus(usagePercent)`: classify the (unrounded) usage
percentage against the thresholds, in descending order. -/
def getStorageStatus (L : StorageLimits) (usagePercent : ℚ) : String :=
  if L.CRITICAL_THRESHOLD * 100 ≤ usagePercent then "critical"
  else if L.CLEANUP_THRESHOLD * 100 ≤ usagePercent then "high"
  else if L.WARNING_THRESHOLD * 100 ≤ usagePercent then "warning"
  else "normal"

/-- `getStorageStats()`: enumerate the GridFS bucket, sum byte lengths,
derive the usage percentage and the status.  Throws when the bucket cannot
be enumerated. -/
def getStorageStats (L : StorageLimits) (db : DB) : Except String StorageStats :=
  if db.gridfsAvailable then
    let totalSize := totalGridFSSize db
    let usagePercent : ℚ := (totalSize : ℚ) / (L.MAX_STORAGE : ℚ) * 100
    .ok { totalSize := totalSize
          usagePercent := toFixed2 usagePercent
          fileCount := db.gridfsFiles.length
          available := (L.MAX_STORAGE : Int) - (totalSize : Int)
          status := getStorageStatus L usagePercent }
  else .error "StoreUnavailable"

/-- The object returned by `checkStorageAvailability`.  Fields that a branch
of the source does not set (`undefined` in JS) are `none`. -/
structure AvailabilityResult where
  canUpload : Bool
  shouldCleanup : Option Bool
  reason : Option String
  stats : Option StorageStats
  error : Option String
deriving DecidableEq, Repr

/-- `checkStorageAvailability(fileSize)`: admission control for a prospective
upload of `fileSize` bytes.  The critical-threshold test compares
`parseFloat(stats.usagePercent)` — the two-decimal-rounded percentage —
against `CRITICAL_THRESHOLD * 100`; the projected-size test uses the raw
byte counts; a failure of the usage computation fails open. -/
def checkStorageAvailability (L : StorageLimits) (fileSize : Nat) (db : DB) :
    AvailabilityResult :=
  match getStorageStats L db with
  | .error e =>
      { canUpload := true, shouldCleanup := some false
        reason := none, stats := none, error := some e }
  | .ok stats =>
      let usagePercent := stats.usagePercent
      if L.CRITICAL_THRESHOLD * 100 ≤ usagePercent then
        { canUpload := false, shouldCleanup := none
          reason := some "Storage quota critical. Please delete old files or contact administrator."
          stats := some stats, error := none }
      else
        let projectedSize := stats.totalSize + fileSize
        let projectedPercent : ℚ := (projectedSize : ℚ) / (L.MAX_STORAGE : ℚ) * 100
        if 100 < projectedPercent then
          { canUpload := false, shouldCleanup := none
            reason := some "File size exceeds available storage. Please delete old files first."
            stats := some stats, error := none }
        else if L.CLEANUP_THRESHOLD * 100 ≤ usagePercent then
          { canUpload := true, shouldCleanup := some true
            reason := some "Storage is high. Automatic cleanup recommended."
            stats := some stats, error := none }
        else
          { canUpload := true, shouldCleanup := some false
            reason := none, stats := some stats, error := none }

/-- Insert a record into a list that is sorted by ascending `createdAt`,
keeping it sorted (used to model Mongo `sort({ createdAt: 1 })`). -/
def insertByCreatedAt (f : FileRecord) : List FileRecord → List FileRecord
  | [] => [f]
  | g :: gs =>
      if f.createdAt ≤ g.createdAt then f :: g :: gs
      else g :: insertByCreatedAt f gs

/-- Sort records by ascending `createdAt` (oldest first):
Mongo `sort({ createdAt: 1 })`. -/
def sortByCreatedAt : List FileRecord → List FileRecord
  | [] => []
  | f :: fs => insertByCreatedAt f (sortByCreatedAt fs)

/-- `getOldestFiles(limit = 50)`: the `limit` oldest records by `createdAt`. -/
def getOldestFiles (db : DB) (limit : Nat := 50) : List FileRecord :=
  (sortByCreatedAt db.records).take limit

/-- 30 days in milliseconds, the staleness window used by
`getCleanupCandidates` (`thirtyDaysAgo.setDate(getDate() - 30)`). -/
def thirtyDaysMs : Nat := 30 * 24 * 60 * 60 * 1000

/-- The Phase-1 candidate filter of `getCleanupCandidates`: status `failed`,
or `uploaded` with `createdAt` before the cutoff, or `processing` with
`processingStartedAt` before the cutoff (a missing `processingStartedAt`
does not match Mongo's `$lt` date query). -/
def isCleanupCandidate (cutoff : Nat) (f : FileRecord) : Bool :=
  f.status == .failed
    || (f.status == .uploaded && f.createdAt < cutoff)
    || (f.status == .processing &&
          match f.processingStartedAt with
          | some t => t < cutoff
          | none => false)

/-- `getCleanupCandidates()`: failed / stale-uploaded / stuck-processing
records, oldest `createdAt` first.  `now` is the current time in ms. -/
def getCleanupCandidates (now : Nat) (db : DB) : List FileRecord :=
  sortByCreatedAt (db.records.filter (isCleanupCandidate (now - thirtyDaysMs)))

/-- Modelled from the spec: `deleteFromGridFS` is defined in
`backend/utils/gridfs.js`, which is not among the provided sources; only its
callers are.  Per the Blob Store Adapter contract (§6),
`delete(blobId) -> void | NotFound`: deleting a blob that is present removes
it, deleting an absent blob fails with `NotFound`.  Ids in `failingBlobIds`
model `BlobDeleteFailed` infrastructure failures (§7). -/
def deleteFromGridFS (blobId : Nat) (db : DB) : Except String DB :=
  if db.failingBlobIds.contains blobId then .error "BlobDeleteFailed"
  else if db.gridfsFiles.any (·._id == blobId) then
    .ok { db with gridfsFiles := db.gridfsFiles.filter (·._id != blobId) }
  else .error "NotFound"

/-- One `{type, name}` entry of the `deletedFiles` array returned by
`deleteFileCompletely`. -/
structure DeletedBlobEntry where
  type : String
  name : String
deriving DecidableEq, Repr

/-- The object returned by `deleteFileCompletely`. -/
structure DeleteResult where
  fileId : Nat
  fileName : String
  deletedSize : Nat
  deletedFiles : List DeletedBlobEntry
  createdAt : Nat
deriving DecidableEq, Repr

/-- The output-file loop of `deleteFileCompletely`: for each output with
`storedInGridFS && gridfsFileId`, try to delete the blob; on success add the
output's `fileSize` to the freed total, on failure log and skip. -/
def deleteOutputBlobs :
    List OutputFile → DB → Nat → List DeletedBlobEntry →
    DB × Nat × List DeletedBlobEntry
  | [], db, size, acc => (db, size, acc)
  | o :: os, db, size, acc =>
      if o.storedInGridFS then
        match o.gridfsFileId with
        | some bid =>
            match deleteFromGridFS bid db with
            | .ok db' =>
                deleteOutputBlobs os db' (size + o.fileSize)
                  (acc ++ [⟨"output", o.fileName⟩])
            | .error _ => deleteOutputBlobs os db size acc
        | none => deleteOutputBlobs os db size acc
      else deleteOutputBlobs os db size acc

/-- `deleteFileCompletely(file)`: delete the input blob (if referenced) and
every stored output blob — each individual failure caught and skipped — then
delete the `File` document itself.  Freed bytes are the record's own
`fileSize` numbers for the blobs whose deletion succeeded. -/
def deleteFileCompletely (f : FileRecord) (db : DB) : DB × DeleteResult :=
  let step1 : DB × Nat × List DeletedBlobEntry :=
    match f.gridfsInputFileId with
    | some bid =>
        match deleteFromGridFS bid db with
        | .ok db' => (db', f.fileSize, [⟨"input", f.originalName⟩])
        | .error _ => (db, 0, [])
    | none => (db, 0, [])
  let step2 := deleteOutputBlobs f.outputFiles step1.1 step1.2.1 step1.2.2
  let db3 := { step2.1 with records := step2.1.records.filter (·._id != f._id) }
  (db3,
    { fileId := f._id, fileName := f.originalName, deletedSize := step2.2.1
      deletedFiles := step2.2.2, createdAt := f.createdAt })

/-- The object returned by `performAutoCleanup`.  `freedSize` is `none` in
the early-return branch, which does not set the field (it is `undefined` in
the returned JS object there). -/
structure CleanupResult where
  success : Bool
  message : String
  initialStats : StorageStats
  finalStats : StorageStats
  deletedFiles : List DeleteResult
  freedSize : Option Nat
deriving DecidableEq, Repr

/-- The shared deletion loop of both phases of `performAutoCleanup`:
walk the candidate list in order, breaking as soon as the accumulated freed
bytes reach `sizeToFree`, otherwise deleting the record completely and
accumulating its freed bytes and its result entry. -/
def cleanupLoop (sizeToFree : ℚ) :
    List FileRecord → DB → Nat → List DeleteResult →
    DB × Nat × List DeleteResult
  | [], db, freed, acc => (db, freed, acc)
  | f :: fs, db, freed, acc =>
      if sizeToFree ≤ (freed : ℚ) then (db, freed, acc)
      else
        let out := deleteFileCompletely f db
        cleanupLoop sizeToFree fs out.1 (freed + out.2.deletedSize) (acc ++ [out.2])

/-- `performAutoCleanup(targetPercent = TARGET_AFTER_CLEANUP)`: compute usage;
if already at or below the target, return at once with no deletions (and no
`freedSize` field); otherwise run Phase 1 over the cleanup candidates and —
if the freed bytes still fall short — Phase 2 over the oldest 100 completed
records, then recompute usage. -/
def performAutoCleanup (L : StorageLimits) (targetPercent : ℚ) (now : Nat)
    (db : DB) : Except String (DB × CleanupResult) := do
  let initialStats ← getStorageStats L db
  let targetSize : ℚ := (L.MAX_STORAGE : ℚ) * targetPercent
  let sizeToFree : ℚ := (initialStats.totalSize : ℚ) - targetSize
  if sizeToFree ≤ 0 then
    return (db,
      { success := true, message := "Storage already below target threshold"
        initialStats := initialStats, finalStats := initialStats
        deletedFiles := [], freedSize := none })
  else
    let candidates := getCleanupCandidates now db
    let phase1 := cleanupLoop sizeToFree candidates db 0 []
    let phase2 :=
      if (phase1.2.1 : ℚ) < sizeToFree then
        let oldFiles :=
          (sortByCreatedAt (phase1.1.records.filter (·.status == .completed))).take 100
        cleanupLoop sizeToFree oldFiles phase1.1 phase1.2.1 phase1.2.2
      else phase1
    let finalStats ← getStorageStats L phase2.1
    return (phase2.1,
      { success := true
        message := s!"Cleanup completed. Deleted {phase2.2.2.length} files."
        initialStats := initialStats, finalStats := finalStats
        deletedFiles := phase2.2.2, freedSize := some phase2.2.1 })

/-- The object returned by `cleanupOrphanedGridFSFiles`. -/
structure OrphanCleanupResult where
  success : Bool
  message : String
  deletedCount : Nat
  freedSize : Nat
deriving DecidableEq, Repr

/-- The set (as a list) of GridFS ids referenced by the `File` collection:
every `gridfsInputFileId` plus every output's `gridfsFileId`. -/
def referencedGridFSIds (records : List FileRecord) : List Nat :=
  records.foldl
    (fun acc f =>
      let acc1 := match f.gridfsInputFileId with
        | some bid => acc ++ [bid]
        | none => acc
      f.outputFiles.foldl
        (fun a o => match o.gridfsFileId with
          | some bid => a ++ [bid]
          | none => a) acc1)
    []

/-- The deletion loop of `cleanupOrphanedGridFSFiles`: delete each orphaned
blob, counting successes and summing their GridFS `length`; failures are
logged and skipped. -/
def orphanLoop : List GridFSFile → DB → Nat → Nat → DB × Nat × Nat
  | [], db, cnt, freed => (db, cnt, freed)
  | g :: gs, db, cnt, freed =>
      match deleteFromGridFS g._id db with
      | .ok db' => orphanLoop gs db' (cnt + 1) (freed + g.length)
      | .error _ => orphanLoop gs db cnt freed

/-- `cleanupOrphanedGridFSFiles()`: enumerate the GridFS bucket and the
`File` collection, collect every referenced GridFS id, and delete each blob
whose id is not referenced. -/
def cleanupOrphanedGridFSFiles (db : DB) :
    Except String (DB × OrphanCleanupResult) :=
  if db.gridfsAvailable then
    let refs := referencedGridFSIds db.records
    let orphanedFiles := db.gridfsFiles.filter (fun g => !(refs.contains g._id))
    let out := orphanLoop orphanedFiles db 0 0
    .ok (out.1,
      { success := true
        message := s!"Cleaned up {out.2.1} orphaned GridFS files"
        deletedCount := out.2.1, freedSize := out.2.2 })
  else .error "StoreUnavailable"

/-- `File.findById(id)`: the record with the given id, if any. -/
def findById (fid : Nat) (db : DB) : Option FileRecord :=
  db.records.find? (·._id == fid)

/-- The response of the `DELETE /api/storage/files` controller
(`deleteMultipleFiles`): 400 on a missing/empty id array, 500 when the final
stats computation throws, otherwise 200 with per-id successes and errors. -/
inductive DeleteFilesResponse where
  | badRequest (message : String)
  | serverError (message : String)
  | ok (deletedFiles : List DeleteResult) (errors : List (Nat × String))
      (totalFreedSize : Nat) (currentStats : StorageStats)
deriving DecidableEq, Repr

/-- The per-id loop of `deleteMultipleFiles`: a missing record is pushed to
`errors` as "File not found" and the loop continues; a found record is
deleted completely, its result pushed to `deletedFiles` and its freed bytes
added to the running total. -/
def deleteFilesLoop :
    List Nat → DB → List DeleteResult → List (Nat × String) → Nat →
    DB × List DeleteResult × List (Nat × String) × Nat
  | [], db, dels, errs, total => (db, dels, errs, total)
  | fid :: rest, db, dels, errs, total =>
      match findById fid db with
      | none => deleteFilesLoop rest db dels (errs ++ [(fid, "File not found")]) total
      | some f =>
          let out := deleteFileCompletely f db
          deleteFilesLoop rest out.1 (dels ++ [out.2]) errs (total + out.2.deletedSize)

/-- `deleteMultipleFiles(req)`: bulk delete by id list.  The `!fileIds ||
!Array.isArray(fileIds) || fileIds.length === 0` guard collapses, in this
typed model, to the emptiness check on the id list. -/
def deleteMultipleFiles (L : StorageLimits) (fileIds : List Nat) (db : DB) :
    DB × DeleteFilesResponse :=
  if fileIds.isEmpty then
    (db, .badRequest "Please provide an array of file IDs to delete")
  else
    let out := deleteFilesLoop fileIds db [] [] 0
    match getStorageStats L out.1 with
    | .ok stats => (out.1, .ok out.2.1 out.2.2.1 out.2.2.2 stats)
    | .error e => (out.1, .serverError e)

/-- JavaScript `parseInt` on an optional query-string value: skip leading
spaces, read an optional sign and then leading decimal digits; `NaN` (no
digits, or a missing value) is `none`. -/
def jsParseInt (s : Option String) : Option Int :=
  match s with
  | none => none
  | some str =>
      let chars := str.toList.dropWhile (· = ' ')
      let (sign, rest) : Int × List Char :=
        match chars with
        | '-' :: cs => (-1, cs)
        | '+' :: cs => (1, cs)
        | cs => (1, cs)
      let digits := rest.takeWhile (·.isDigit)
      if digits.isEmpty then none
      else some (sign * (digits.foldl (fun n c => n * 10 + (c.toNat - 48)) 0 : Nat))

/-- One entry of the files array built by the `getOldestFilesList`
controller. -/
structure OldestFileSummary where
  _id : Nat
  originalName : String
  status : FileStatus
  createdAt : Nat
  fileSize : Nat
  outputFilesCount : Nat
  totalSize : Nat
  uploadedBy : Nat
deriving DecidableEq, Repr

/-- The mapping applied by `getOldestFilesList` to each record. -/
def summarizeOldest (f : FileRecord) : OldestFileSummary :=
  { _id := f._id, originalName := f.originalName, status := f.status
    createdAt := f.createdAt, fileSize := f.fileSize
    outputFilesCount := f.outputFiles.length
    totalSize := f.fileSize + (f.outputFiles.map (·.fileSize)).sum
    uploadedBy := f.uploadedBy }

/-- The 200 response of `GET /api/storage/oldest-files`. -/
structure OldestFilesResponse where
  success : Bool
  count : Nat
  files : List OldestFileSummary
deriving DecidableEq, Repr

/-- `getOldestFilesList(req)`: `limit = parseInt(req.query.limit) || 50`
(`NaN` and `0` both fall back to 50), then the `limit` oldest records,
summarized.  Negative parsed limits clamp to `0` here; the modelled claims
only exercise missing, non-numeric and positive values. -/
def getOldestFilesList (limitParam : Option String) (db : DB) :
    OldestFilesResponse :=
  let limit : Int :=
    match jsParseInt limitParam with
    | some n => if n = 0 then 50 else n
    | none => 50
  let files := (getOldestFiles db limit.toNat).map summarizeOldest
  { success := true, count := files.length, files := files }

example :
    (checkStorageAvailability
      { STORAGE_LIMITS with MAX_STORAGE := 1000 } 10
      { gridfsFiles := [⟨1, "a", 960⟩], records := [], failingBlobIds := [],
        gridfsAvailable := true }).canUpload = false := by
  norm_num [checkStorageAvailability, getStorageStats, totalGridFSSize,
    getStorageStatus, toFixed2, STORAGE_LIMITS]

example :
    (checkStorageAvailability
      { STORAGE_LIMITS with MAX_STORAGE := 1000 } 600
      { gridfsFiles := [⟨1, "a", 500⟩], records := [], failingBlobIds := [],
        gridfsAvailable := true }).reason =
    some "File size exceeds available storage. Please delete old files first." := by
  norm_num [checkStorageAvailability, getStorageStats, totalGridFSSize,
    getStorageStatus, toFixed2, STORAGE_LIMITS]

example :
    (checkStorageAvailability
      { STORAGE_LIMITS with MAX_STORAGE := 1000 } 50
      { gridfsFiles := [⟨1, "a", 900⟩], records := [], failingBlobIds := [],
        gridfsAvailable := true }).shouldCleanup = some true := by
  norm_num [checkStorageAvailability, getStorageStats, totalGridFSSize,
    getStorageStatus, toFixed2, STORAGE_LIMITS]

/-! ## Helper lemmas -/

theorem deleteFromGridFS_ok (b : Nat) (db db' : DB)
    (h : deleteFromGridFS b db = .ok db') :
    db'.records = db.records ∧ db'.failingBlobIds = db.failingBlobIds ∧
      db'.gridfsAvailable = db.gridfsAvailable ∧
      db'.gridfsFiles = db.gridfsFiles.filter (·._id != b) := by
  unfold deleteFromGridFS at h
  split at h
  · exact absurd h (by simp)
  · split at h
    · cases h
      exact ⟨rfl, rfl, rfl, rfl⟩
    · exact absurd h (by simp)

theorem orphanLoop_records (gs : List GridFSFile) (db : DB) (c f : Nat) :
    (orphanLoop gs db c f).1.records = db.records ∧
      (orphanLoop gs db c f).1.failingBlobIds = db.failingBlobIds ∧
      (orphanLoop gs db c f).1.gridfsAvailable = db.gridfsAvailable := by
  induction gs generalizing db c f with
  | nil => exact ⟨rfl, rfl, rfl⟩
  | cons g gs ih =>
      unfold orphanLoop
      cases h : deleteFromGridFS g._id db with
      | ok db' =>
          obtain ⟨h1, h2, h3, _⟩ := deleteFromGridFS_ok _ _ _ h
          obtain ⟨i1, i2, i3⟩ := ih db' (c + 1) (f + g.length)
          exact ⟨i1.trans h1, i2.trans h2, i3.trans h3⟩
      | error e => exact ih db c f

/-- The abstract usage fraction of §4.1 of the spec: total stored bytes over
configured capacity. -/
def usageFraction (L : StorageLimits) (db : DB) : ℚ :=
  (totalGridFSSize db : ℚ) / (L.MAX_STORAGE : ℚ)

theorem mul100_le_mul100 (t f : ℚ) : t * 100 ≤ f * 100 ↔ t ≤ f :=
  mul_le_mul_right (by norm_num)

/-! ## C8 — status thresholds in `getStorageStats` -/

/-- C8: `getStorageStats` derives `status` by comparing the usage fraction
against the configured thresholds in descending order: at or above
`CRITICAL_THRESHOLD` the status is `critical`; otherwise at or above
`CLEANUP_THRESHOLD` it is `high`; otherwise at or above `WARNING_THRESHOLD`
it is `warning`; otherwise `normal`. -/
theorem getStorageStats_status_thresholds (L : StorageLimits) (db : DB)
    (s : StorageStats) (h : getStorageStats L db = .ok s) :
    (L.CRITICAL_THRESHOLD ≤ usageFraction L db → s.status = "critical") ∧
    (¬ L.CRITICAL_THRESHOLD ≤ usageFraction L db →
      L.CLEANUP_THRESHOLD ≤ usageFraction L db → s.status = "high") ∧
    (¬ L.CRITICAL_THRESHOLD ≤ usageFraction L db →
      ¬ L.CLEANUP_THRESHOLD ≤ usageFraction L db →
      L.WARNING_THRESHOLD ≤ usageFraction L db → s.status = "warning") ∧
    (¬ L.CRITICAL_THRESHOLD ≤ usageFraction L db →
      ¬ L.CLEANUP_THRESHOLD ≤ usageFraction L db →
      ¬ L.WARNING_THRESHOLD ≤ usageFraction L db → s.status = "normal") := by
  unfold getStorageStats at h
  split at h
  case isFalse => exact absurd h (by simp)
  case isTrue =>
    injection h with h
    have hs : s.status = getStorageStatus L (usageFraction L db * 100) := by
      rw [← h]
      rfl
    rw [hs]
    unfold getStorageStatus
    refine ⟨?_, ?_, ?_, ?_⟩
    · intro hc
      rw [if_pos ((mul100_le_mul100 _ _).mpr hc)]
    · intro hnc hcl
      rw [if_neg (fun hh => hnc ((mul100_le_mul100 _ _).mp hh)),
        if_pos ((mul100_le_mul100 _ _).mpr hcl)]
    · intro hnc hncl hw
      rw [if_neg (fun hh => hnc ((mul100_le_mul100 _ _).mp hh)),
        if_neg (fun hh => hncl ((mul100_le_mul100 _ _).mp hh)),
        if_pos ((mul100_le_mul100 _ _).mpr hw)]
    · intro hnc hncl hnw
      rw [if_neg (fun hh => hnc ((mul100_le_mul100 _ _).mp hh)),
        if_neg (fun hh => hncl ((mul100_le_mul100 _ _).mp hh)),
        if_neg (fun hh => hnw ((mul100_le_mul100 _ _).mp hh))]

/-- A small concrete state for witnesses: one 480 MiB blob in a 512 MiB
store (93.75% usage, between the cleanup and critical thresholds). -/
def witnessHighDB : DB :=
  { gridfsFiles := [⟨1, "big", 480 * 1024 * 1024⟩]
    records := [], failingBlobIds := [], gridfsAvailable := true }

/-- Witness for C8: at 93.75% usage `getStorageStats` succeeds and the
threshold cascade applies, giving status `high`. -/
theorem getStorageStats_status_thresholds_witness :
    (¬ STORAGE_LIMITS.CRITICAL_THRESHOLD ≤ usageFraction STORAGE_LIMITS witnessHighDB →
      STORAGE_LIMITS.CLEANUP_THRESHOLD ≤ usageFraction STORAGE_LIMITS witnessHighDB →
      ({ totalSize := 480 * 1024 * 1024, usagePercent := 375 / 4, fileCount := 1
         available := 32 * 1024 * 1024, status := "high" } : StorageStats).status = "high") ∧
    ({ totalSize := 480 * 1024 * 1024, usagePercent := 375 / 4, fileCount := 1
       available := 32 * 1024 * 1024, status := "high" } : StorageStats).status = "high" := by
  have hok : getStorageStats STORAGE_LIMITS witnessHighDB =
      .ok { totalSize := 480 * 1024 * 1024, usagePercent := 375 / 4, fileCount := 1
            available := 32 * 1024 * 1024, status := "high" } := by
    norm_num [getStorageStats, totalGridFSSize, witnessHighDB, STORAGE_LIMITS,
      getStorageStatus, toFixed2]
  have hmain := getStorageStats_status_thresholds STORAGE_LIMITS witnessHighDB _ hok
  refine ⟨hmain.2.1, ?_⟩
  exact hmain.2.1
    (by norm_num [usageFraction, totalGridFSSize, witnessHighDB, STORAGE_LIMITS])
    (by norm_num [usageFraction, totalGridFSSize, witnessHighDB, STORAGE_LIMITS])

/-! ## C4 — admission check fails open -/

/-- C4: when the usage computation inside `checkStorageAvailability` throws
(the GridFS bucket cannot be enumerated), the failure is not propagated: the
result allows the upload, sets `shouldCleanup := false`, and attaches the
error message for logging. -/
theorem checkStorageAvailability_fail_open (L : StorageLimits) (c : Nat)
    (db : DB) (h : db.gridfsAvailable = false) :
    checkStorageAvailability L c db =
      { canUpload := true, shouldCleanup := some false, reason := none
        stats := none, error := some "StoreUnavailable" } := by
  simp [checkStorageAvailability, getStorageStats, h]

/-- A state whose GridFS bucket cannot be enumerated. -/
def unavailableDB : DB :=
  { gridfsFiles := [⟨1, "a", 10⟩], records := [], failingBlobIds := []
    gridfsAvailable := false }

/-- Witness for C4 at a concrete broken store and candidate size. -/
theorem checkStorageAvailability_fail_open_witness :
    unavailableDB.gridfsAvailable = false ∧
    checkStorageAvailability STORAGE_LIMITS 42 unavailableDB =
      { canUpload := true, shouldCleanup := some false, reason := none
        stats := none, error := some "StoreUnavailable" } :=
  ⟨rfl, checkStorageAvailability_fail_open STORAGE_LIMITS 42 unavailableDB rfl⟩

/-! ## C9 — the orphan scanner never touches the `File` collection -/

/-- C9: `cleanupOrphanedGridFSFiles` deletes only blobs: whenever it
returns, the `File` record collection is exactly what it was before. -/
theorem cleanupOrphanedGridFSFiles_frame (db db' : DB)
    (res : OrphanCleanupResult)
    (h : cleanupOrphanedGridFSFiles db = .ok (db', res)) :
    db'.records = db.records := by
  unfold cleanupOrphanedGridFSFiles at h
  split at h
  case isTrue =>
    injection h with h
    have h1 : (orphanLoop (db.gridfsFiles.filter
        (fun g => !((referencedGridFSIds db.records).contains g._id))) db 0 0).1 = db' :=
      congrArg Prod.fst h
    rw [← h1]
    exact (orphanLoop_records _ _ _ _).1
  case isFalse => exact absurd h (by simp)

/-- A state with one referenced and one orphaned blob. -/
def orphanWitnessDB : DB :=
  { gridfsFiles := [⟨1, "kept", 5⟩, ⟨2, "orphan", 7⟩]
    records := [{ _id := 10, originalName := "doc", fileSize := 5
                  status := .completed, gridfsInputFileId := some 1
                  outputFiles := [], uploadedBy := 3, createdAt := 100
                  processingStartedAt := none }]
    failingBlobIds := [], gridfsAvailable := true }

/-- Witness for C9: on a concrete store the scan deletes the orphan blob and
leaves the record collection unchanged. -/
theorem cleanupOrphanedGridFSFiles_frame_witness :
    cleanupOrphanedGridFSFiles orphanWitnessDB =
      .ok ({ gridfsFiles := [⟨1, "kept", 5⟩], records := orphanWitnessDB.records
             failingBlobIds := [], gridfsAvailable := true },
        { success := true, message := "Cleaned up 1 orphaned GridFS files"
          deletedCount := 1, freedSize := 7 }) ∧
    ({ gridfsFiles := [⟨1, "kept", 5⟩], records := orphanWitnessDB.records
       failingBlobIds := [], gridfsAvailable := true } : DB).records =
      orphanWitnessDB.records :=
  ⟨rfl, cleanupOrphanedGridFSFiles_frame _ _ _ rfl⟩

/-! ## C2 — reclamation below target is a no-op (corrected) -/

/-- The empty, healthy store. -/
def emptyDB : DB :=
  { gridfsFiles := [], records := [], failingBlobIds := [], gridfsAvailable := true }

/-- The usage snapshot of `emptyDB` under the source's limits. -/
def emptyStats : StorageStats :=
  { totalSize := 0, usagePercent := 0, fileCount := 0
    available := 536870912, status := "normal" }

/-- Counterexample to C2 as stated: on a store already below target,
`performAutoCleanup` does return with no deletions, but the early-return
object does not set `freedSize` at all (it is `undefined` in JS, `none`
here), so the call does not return `freedBytes = 0`. -/
theorem performAutoCleanup_noop_freedSize_cex :
    ((totalGridFSSize emptyDB : ℚ) ≤ (STORAGE_LIMITS.MAX_STORAGE : ℚ) * (7 / 10)) ∧
    performAutoCleanup STORAGE_LIMITS (7 / 10) 0 emptyDB =
      .ok (emptyDB,
        { success := true, message := "Storage already below target threshold"
          initialStats := emptyStats, finalStats := emptyStats
          deletedFiles := [], freedSize := none }) ∧
    (performAutoCleanup STORAGE_LIMITS (7 / 10) 0 emptyDB).map
        (fun p => p.2.freedSize) ≠ .ok (some 0) := by
  have hrun : performAutoCleanup STORAGE_LIMITS (7 / 10) 0 emptyDB =
      .ok (emptyDB,
        { success := true, message := "Storage already below target threshold"
          initialStats := emptyStats, finalStats := emptyStats
          deletedFiles := [], freedSize := none }) := by
    norm_num [performAutoCleanup, getStorageStats, totalGridFSSize, emptyDB,
      emptyStats, STORAGE_LIMITS, getStorageStatus, toFixed2, Bind.bind,
      Except.bind, pure, Except.pure]
  refine ⟨by norm_num [totalGridFSSize, emptyDB, STORAGE_LIMITS], hrun, ?_⟩
  rw [hrun]
  simp [Except.map]

/-- C2 as amended: if the usage computed at the start of the call is at or
below `maxBytes * targetFraction`, `performAutoCleanup` returns immediately
with the state unchanged, no deleted records, and no `freedSize` field on
the result (rather than `freedSize = 0`). -/
theorem performAutoCleanup_noop_below_target (L : StorageLimits) (tp : ℚ)
    (now : Nat) (db : DB) (hA : db.gridfsAvailable = true)
    (h : (totalGridFSSize db : ℚ) ≤ (L.MAX_STORAGE : ℚ) * tp) :
    ∃ r, performAutoCleanup L tp now db = .ok (db, r) ∧
      r.deletedFiles = [] ∧ r.freedSize = none := by
  have hst : getStorageStats L db = .ok
      { totalSize := totalGridFSSize db
        usagePercent := toFixed2 ((totalGridFSSize db : ℚ) / (L.MAX_STORAGE : ℚ) * 100)
        fileCount := db.gridfsFiles.length
        available := (L.MAX_STORAGE : Int) - (totalGridFSSize db : Int)
        status := getStorageStatus L ((totalGridFSSize db : ℚ) / (L.MAX_STORAGE : ℚ) * 100) } := by
    simp [getStorageStats, hA]
  have hcond : ((totalGridFSSize db : ℚ) - (L.MAX_STORAGE : ℚ) * tp ≤ 0) :=
    sub_nonpos.mpr h
  have hEq : performAutoCleanup L tp now db = .ok (db,
      { success := true, message := "Storage already below target threshold"
        initialStats :=
          { totalSize := totalGridFSSize db
            usagePercent := toFixed2 ((totalGridFSSize db : ℚ) / (L.MAX_STORAGE : ℚ) * 100)
            fileCount := db.gridfsFiles.length
            available := (L.MAX_STORAGE : Int) - (totalGridFSSize db : Int)
            status := getStorageStatus L ((totalGridFSSize db : ℚ) / (L.MAX_STORAGE : ℚ) * 100) }
        finalStats :=
          { totalSize := totalGridFSSize db
            usagePercent := toFixed2 ((totalGridFSSize db : ℚ) / (L.MAX_STORAGE : ℚ) * 100)
            fileCount := db.gridfsFiles.length
            available := (L.MAX_STORAGE : Int) - (totalGridFSSize db : Int)
            status := getStorageStatus L ((totalGridFSSize db : ℚ) / (L.MAX_STORAGE : ℚ) * 100) }
        deletedFiles := [], freedSize := none }) := by
    simp only [performAutoCleanup, hst, Bind.bind, Except.bind]
    split
    · rfl
    · rename_i hfalse
      exact absurd hcond hfalse
  exact ⟨_, hEq, rfl, rfl⟩

/-- Witness for the amended C2 at a concrete under-target store. -/
theorem performAutoCleanup_noop_below_target_witness :
    emptyDB.gridfsAvailable = true ∧
    ((totalGridFSSize emptyDB : ℚ) ≤ (STORAGE_LIMITS.MAX_STORAGE : ℚ) * (7 / 10)) ∧
    ∃ r, performAutoCleanup STORAGE_LIMITS (7 / 10) 5 emptyDB = .ok (emptyDB, r) ∧
      r.deletedFiles = [] ∧ r.freedSize = none :=
  ⟨rfl, by norm_num [totalGridFSSize, emptyDB, STORAGE_LIMITS],
    performAutoCleanup_noop_below_target STORAGE_LIMITS (7 / 10) 5 emptyDB rfl
      (by norm_num [totalGridFSSize, emptyDB, STORAGE_LIMITS])⟩

/-! ## C3 — admission decision order (corrected) -/

/-- A store at 94.9968% raw usage under the source's 512 MiB limit: below
the 95% critical fraction, yet `toFixed(2)` rounds its usage percentage up
to `95.00`. -/
def roundingCexDB : DB :=
  { gridfsFiles := [⟨1, "big", 510010000⟩], records := []
    failingBlobIds := [], gridfsAvailable := true }

/-- Counterexample to C3 as stated: with usage `510010000 / 536870912`
(raw fraction ≈ 0.94997, strictly below `CRITICAL_THRESHOLD = 0.95`, at or
above `CLEANUP_THRESHOLD`, and with a 1-byte candidate fitting within
capacity), the claim's ordering prescribes `allow` with a cleanup hint — but
the code compares the `toFixed(2)`-rounded percentage `95.00 ≥ 95` and
denies with "quota critical". -/
theorem checkStorageAvailability_rounding_cex :
    usageFraction STORAGE_LIMITS roundingCexDB < STORAGE_LIMITS.CRITICAL_THRESHOLD ∧
    STORAGE_LIMITS.CLEANUP_THRESHOLD ≤ usageFraction STORAGE_LIMITS roundingCexDB ∧
    (((totalGridFSSize roundingCexDB + 1 : ℕ) : ℚ) / (STORAGE_LIMITS.MAX_STORAGE : ℚ) ≤ 1) ∧
    (checkStorageAvailability STORAGE_LIMITS 1 roundingCexDB).canUpload = false ∧
    (checkStorageAvailability STORAGE_LIMITS 1 roundingCexDB).reason =
      some "Storage quota critical. Please delete old files or contact administrator." := by
  refine ⟨?_, ?_, ?_, ?_, ?_⟩ <;>
    norm_num [checkStorageAvailability, getStorageStats, usageFraction,
      totalGridFSSize, roundingCexDB, STORAGE_LIMITS, getStorageStatus, toFixed2]

/-- C3 as amended: `checkStorageAvailability` follows the claimed decision
order — critical denial first, then the projected-capacity denial, then the
allow-with-cleanup-hint, then the plain allow — except that the critical and
cleanup threshold comparisons are made against the usage percentage rounded
to two decimals by `toFixed(2)` (so raw fractions just below a threshold
that round up to it take the higher branch). -/
theorem checkStorageAvailability_decision_order (L : StorageLimits) (c : Nat)
    (db : DB) (hA : db.gridfsAvailable = true) :
    (L.CRITICAL_THRESHOLD * 100 ≤ toFixed2 (usageFraction L db * 100) →
      (checkStorageAvailability L c db).canUpload = false ∧
      (checkStorageAvailability L c db).reason =
        some "Storage quota critical. Please delete old files or contact administrator.") ∧
    (¬ L.CRITICAL_THRESHOLD * 100 ≤ toFixed2 (usageFraction L db * 100) →
      100 < ((totalGridFSSize db + c : ℕ) : ℚ) / (L.MAX_STORAGE : ℚ) * 100 →
      (checkStorageAvailability L c db).canUpload = false ∧
      (checkStorageAvailability L c db).reason =
        some "File size exceeds available storage. Please delete old files first.") ∧
    (¬ L.CRITICAL_THRESHOLD * 100 ≤ toFixed2 (usageFraction L db * 100) →
      ¬ 100 < ((totalGridFSSize db + c : ℕ) : ℚ) / (L.MAX_STORAGE : ℚ) * 100 →
      L.CLEANUP_THRESHOLD * 100 ≤ toFixed2 (usageFraction L db * 100) →
      (checkStorageAvailability L c db).canUpload = true ∧
      (checkStorageAvailability L c db).shouldCleanup = some true) ∧
    (¬ L.CRITICAL_THRESHOLD * 100 ≤ toFixed2 (usageFraction L db * 100) →
      ¬ 100 < ((totalGridFSSize db + c : ℕ) : ℚ) / (L.MAX_STORAGE : ℚ) * 100 →
      ¬ L.CLEANUP_THRESHOLD * 100 ≤ toFixed2 (usageFraction L db * 100) →
      (checkStorageAvailability L c db).canUpload = true ∧
      (checkStorageAvailability L c db).shouldCleanup = some false) := by
  have hst : getStorageStats L db = .ok
      { totalSize := totalGridFSSize db
        usagePercent := toFixed2 ((totalGridFSSize db : ℚ) / (L.MAX_STORAGE : ℚ) * 100)
        fileCount := db.gridfsFiles.length
        available := (L.MAX_STORAGE : Int) - (totalGridFSSize db : Int)
        status := getStorageStatus L ((totalGridFSSize db : ℚ) / (L.MAX_STORAGE : ℚ) * 100) } := by
    simp [getStorageStats, hA]
  have hfrac : usageFraction L db * 100 =
      (totalGridFSSize db : ℚ) / (L.MAX_STORAGE : ℚ) * 100 := rfl
  unfold checkStorageAvailability
  rw [hst, hfrac]
  push_cast
  refine ⟨?_, ?_, ?_, ?_⟩
  · intro hc
    rw [if_pos hc]
    exact ⟨rfl, rfl⟩
  · intro hnc hproj
    rw [if_neg hnc, if_pos hproj]
    exact ⟨rfl, rfl⟩
  · intro hnc hnproj hcl
    rw [if_neg hnc, if_neg hnproj, if_pos hcl]
    exact ⟨rfl, rfl⟩
  · intro hnc hnproj hncl
    rw [if_neg hnc, if_neg hnproj, if_neg hncl]
    exact ⟨rfl, rfl⟩

/-- The abstract-limit configuration of the claim's examples:
`maxBytes = 1000` with the source's threshold fractions. -/
def limits1000 : StorageLimits :=
  { MAX_STORAGE := 1000, WARNING_THRESHOLD := 85 / 100
    CLEANUP_THRESHOLD := 90 / 100, CRITICAL_THRESHOLD := 95 / 100
    TARGET_AFTER_CLEANUP := 70 / 100 }

/-- A 1000-byte store holding `n` bytes. -/
def db1000 (n : Nat) : DB :=
  { gridfsFiles := [⟨1, "data", n⟩], records := [], failingBlobIds := []
    gridfsAvailable := true }

/-- Witness for the amended C3, covering the claim's three concrete cases:
usage 960/1000 with candidate 10 denies "quota critical"; usage 500/1000
with candidate 600 denies for capacity; usage 900/1000 with candidate 50
allows with a cleanup hint. -/
theorem checkStorageAvailability_decision_order_witness :
    ((checkStorageAvailability limits1000 10 (db1000 960)).canUpload = false ∧
      (checkStorageAvailability limits1000 10 (db1000 960)).reason =
        some "Storage quota critical. Please delete old files or contact administrator.") ∧
    ((checkStorageAvailability limits1000 600 (db1000 500)).canUpload = false ∧
      (checkStorageAvailability limits1000 600 (db1000 500)).reason =
        some "File size exceeds available storage. Please delete old files first.") ∧
    ((checkStorageAvailability limits1000 50 (db1000 900)).canUpload = true ∧
      (checkStorageAvailability limits1000 50 (db1000 900)).shouldCleanup = some true) := by
  refine ⟨?_, ?_, ?_⟩
  · exact (checkStorageAvailability_decision_order limits1000 10 (db1000 960) rfl).1
      (by norm_num [toFixed2, usageFraction, totalGridFSSize, db1000, limits1000])
  · exact (checkStorageAvailability_decision_order limits1000 600 (db1000 500) rfl).2.1
      (by norm_num [toFixed2, usageFraction, totalGridFSSize, db1000, limits1000])
      (by norm_num [totalGridFSSize, db1000, limits1000])
  · exact (checkStorageAvailability_decision_order limits1000 50 (db1000 900) rfl).2.2.1
      (by norm_num [toFixed2, usageFraction, totalGridFSSize, db1000, limits1000])
      (by norm_num [totalGridFSSize, db1000, limits1000])
      (by norm_num [toFixed2, usageFraction, totalGridFSSize, db1000, limits1000])

/-! ## C5 — complete record deletion -/

/-- The blob references a record's output loop attempts to delete:
`gridfsFileId` of every output with `storedInGridFS && gridfsFileId`. -/
def outputBlobRefs (os : List OutputFile) : List Nat :=
  os.filterMap (fun o => if o.storedInGridFS then o.gridfsFileId else none)

/-- All blob references `deleteFileCompletely` attempts to delete: the input
blob reference (when present) followed by the stored output references. -/
def attemptedBlobRefs (f : FileRecord) : List Nat :=
  (match f.gridfsInputFileId with
    | some b => [b]
    | none => []) ++ outputBlobRefs f.outputFiles

/-- Whether a blob with the given id is currently in the bucket. -/
def blobPresent (db : DB) (bid : Nat) : Bool :=
  db.gridfsFiles.any (·._id == bid)

/-- Bytes an output contributes to `deletedSize`: its recorded `fileSize`
when its blob deletion succeeds (stored, referenced, not failing, present),
zero otherwise. -/
def outputContribution (db : DB) (o : OutputFile) : Nat :=
  if o.storedInGridFS then
    match o.gridfsFileId with
    | some bid =>
        if !(db.failingBlobIds.contains bid) && blobPresent db bid then o.fileSize
        else 0
    | none => 0
  else 0

/-- Bytes the input blob contributes to `deletedSize`. -/
def inputContribution (db : DB) (f : FileRecord) : Nat :=
  match f.gridfsInputFileId with
  | some bid =>
      if !(db.failingBlobIds.contains bid) && blobPresent db bid then f.fileSize
      else 0
  | none => 0

theorem any_id_filter (l : List GridFSFile) (bid b : Nat) (hne : b ≠ bid) :
    (l.filter (fun g => g._id != bid)).any (fun g => g._id == b) =
      l.any (fun g => g._id == b) := by
  induction l with
  | nil => rfl
  | cons g l ih =>
      cases hgb : (g._id == b) with
      | false =>
          cases hgd : (g._id != bid) <;>
            simp [List.filter_cons, List.any_cons, hgb, hgd, ih]
      | true =>
          have hid : g._id = b := by simpa using hgb
          have : (g._id != bid) = true := by
            simp [hid, bne_iff_ne]
            exact hne
          simp [List.filter_cons, List.any_cons, this, hgb]

theorem blobPresent_delete_ne (db db' : DB) (bid b : Nat)
    (hfiles : db'.gridfsFiles = db.gridfsFiles.filter (·._id != bid))
    (hne : b ≠ bid) : blobPresent db' b = blobPresent db b := by
  unfold blobPresent
  rw [hfiles]
  exact any_id_filter _ _ _ hne

theorem outputContribution_delete_ne (db db' : DB) (bid : Nat)
    (hfiles : db'.gridfsFiles = db.gridfsFiles.filter (·._id != bid))
    (hfail : db'.failingBlobIds = db.failingBlobIds) (o : OutputFile)
    (ho : ∀ b, o.storedInGridFS = true → o.gridfsFileId = some b → b ≠ bid) :
    outputContribution db' o = outputContribution db o := by
  unfold outputContribution
  cases hs : o.storedInGridFS with
  | false => simp
  | true =>
      cases hid : o.gridfsFileId with
      | none => simp
      | some b =>
          have hb := blobPresent_delete_ne db db' bid b hfiles (ho b hs hid)
          simp [hfail, hb]

theorem deleteOutputBlobs_state (os : List OutputFile) (db : DB) (n : Nat)
    (a : List DeletedBlobEntry) :
    (deleteOutputBlobs os db n a).1.records = db.records ∧
    (deleteOutputBlobs os db n a).1.failingBlobIds = db.failingBlobIds ∧
    (deleteOutputBlobs os db n a).1.gridfsAvailable = db.gridfsAvailable ∧
    (∀ g, g ∈ (deleteOutputBlobs os db n a).1.gridfsFiles → g ∈ db.gridfsFiles) := by
  induction os generalizing db n a with
  | nil => exact ⟨rfl, rfl, rfl, fun g hg => hg⟩
  | cons o os ih =>
      unfold deleteOutputBlobs
      split
      · split
        · split
          · rename_i db' hdel
            obtain ⟨hr, hf, hv, hfl⟩ := deleteFromGridFS_ok _ db db' hdel
            obtain ⟨ir, if_, iv, ifl⟩ := ih db' _ _
            refine ⟨ir.trans hr, if_.trans hf, iv.trans hv, fun g hg => ?_⟩
            have hmem := ifl g hg
            rw [hfl] at hmem
            exact List.mem_of_mem_filter hmem
          · exact ih db n a
        · exact ih db n a
      · exact ih db n a

theorem deleteFromGridFS_ok_conditions (b : Nat) (db db' : DB)
    (h : deleteFromGridFS b db = .ok db') :
    db.failingBlobIds.contains b = false ∧ blobPresent db b = true := by
  unfold deleteFromGridFS at h
  split at h
  · exact absurd h (by simp)
  · rename_i hnf
    split at h
    · rename_i hp
      exact ⟨by simpa using hnf, hp⟩
    · exact absurd h (by simp)

theorem deleteFromGridFS_error_cases (b : Nat) (db : DB) (e : String)
    (h : deleteFromGridFS b db = .error e) :
    db.failingBlobIds.contains b = true ∨ blobPresent db b = false := by
  unfold deleteFromGridFS at h
  split at h
  · rename_i hf
    exact .inl hf
  · split at h
    · exact absurd h (by simp)
    · rename_i hp
      exact .inr (Bool.eq_false_iff.mpr hp)

theorem blobPresent_false_ne (db : DB) (b : Nat) (h : blobPresent db b = false) :
    ∀ g ∈ db.gridfsFiles, g._id ≠ b := by
  intro g hg hEq
  have hall := List.any_eq_false.mp h g hg
  simp [hEq] at hall

theorem deleteOutputBlobs_gone (os : List OutputFile) (db : DB) (n : Nat)
    (a : List DeletedBlobEntry) :
    ∀ bid ∈ outputBlobRefs os, db.failingBlobIds.contains bid = false →
      ∀ g ∈ (deleteOutputBlobs os db n a).1.gridfsFiles, g._id ≠ bid := by
  induction os generalizing db n a with
  | nil =>
      intro bid hbid
      simp [outputBlobRefs] at hbid
  | cons o os ih =>
      intro bid hbid hfail g hg
      revert hg
      unfold deleteOutputBlobs
      split
      · rename_i hs
        split
        · rename_i b hid
          have hrefs : outputBlobRefs (o :: os) = b :: outputBlobRefs os := by
            simp [outputBlobRefs, List.filterMap_cons, hs, hid]
          rw [hrefs] at hbid
          split
          · rename_i db' hdel
            obtain ⟨hr, hf, hv, hfl⟩ := deleteFromGridFS_ok _ db db' hdel
            rcases List.mem_cons.mp hbid with hbb | hbtl
            · subst hbb
              intro hg
              have hmem := (deleteOutputBlobs_state os db' _ _).2.2.2 g hg
              rw [hfl] at hmem
              have := List.of_mem_filter hmem
              simpa using this
            · intro hg
              exact ih db' _ _ bid hbtl (hf ▸ hfail) g hg
          · rename_i e hdel
            rcases List.mem_cons.mp hbid with hbb | hbtl
            · subst hbb
              rcases deleteFromGridFS_error_cases _ db e hdel with hc | hp
              · rw [hfail] at hc
                exact absurd hc (by simp)
              · intro hg
                exact blobPresent_false_ne db bid hp g
                  ((deleteOutputBlobs_state os db _ _).2.2.2 g hg)
            · intro hg
              exact ih db _ _ bid hbtl hfail g hg
        · rename_i hid
          have hrefs : outputBlobRefs (o :: os) = outputBlobRefs os := by
            simp [outputBlobRefs, List.filterMap_cons, hs, hid]
          rw [hrefs] at hbid
          intro hg
          exact ih db _ _ bid hbid hfail g hg
      · rename_i hs
        have hsf : o.storedInGridFS = false := by simpa using hs
        have hrefs : outputBlobRefs (o :: os) = outputBlobRefs os := by
          simp [outputBlobRefs, List.filterMap_cons, hsf]
        rw [hrefs] at hbid
        intro hg
        exact ih db _ _ bid hbid hfail g hg

theorem deleteOutputBlobs_freed (os : List OutputFile) (db : DB) (n : Nat)
    (a : List DeletedBlobEntry) (hnd : (outputBlobRefs os).Nodup) :
    (deleteOutputBlobs os db n a).2.1 =
      n + (os.map (outputContribution db)).sum := by
  induction os generalizing db n a with
  | nil => simp [deleteOutputBlobs]
  | cons o os ih =>
      unfold deleteOutputBlobs
      split
      · rename_i hs
        split
        · rename_i b hid
          have hrefs : outputBlobRefs (o :: os) = b :: outputBlobRefs os := by
            simp [outputBlobRefs, List.filterMap_cons, hs, hid]
          rw [hrefs] at hnd
          have hbnotin : b ∉ outputBlobRefs os := (List.nodup_cons.mp hnd).1
          have hndtl : (outputBlobRefs os).Nodup := (List.nodup_cons.mp hnd).2
          split
          · rename_i db' hdel
            obtain ⟨hnf, hpres⟩ := deleteFromGridFS_ok_conditions b db db' hdel
            obtain ⟨_, hf, _, hfl⟩ := deleteFromGridFS_ok b db db' hdel
            have hnf2 : b ∉ db.failingBlobIds := by simpa using hnf
            have hcontrib : outputContribution db o = o.fileSize := by
              simp [outputContribution, hs, hid, hnf2, hpres]
            have hmapeq : os.map (outputContribution db') =
                os.map (outputContribution db) := by
              apply List.map_congr_left
              intro o' ho'
              apply outputContribution_delete_ne db db' b hfl hf o'
              intro b' hstored' hid' hbb
              exact hbnotin (hbb ▸ List.mem_filterMap.mpr
                ⟨o', ho', by simp [hstored', hid']⟩)
            rw [ih db' _ _ hndtl, hmapeq, List.map_cons, List.sum_cons, hcontrib]
            omega
          · rename_i e hdel
            have hcontrib : outputContribution db o = 0 := by
              rcases deleteFromGridFS_error_cases b db e hdel with hc | hp
              · have hc2 : b ∈ db.failingBlobIds := by simpa using hc
                simp [outputContribution, hs, hid, hc2]
              · simp [outputContribution, hs, hid, hp]
            rw [ih db n a hndtl, List.map_cons, List.sum_cons, hcontrib]
            omega
        · rename_i hid
          have hrefs : outputBlobRefs (o :: os) = outputBlobRefs os := by
            simp [outputBlobRefs, List.filterMap_cons, hs, hid]
          rw [hrefs] at hnd
          have hcontrib : outputContribution db o = 0 := by
            simp [outputContribution, hs, hid]
          rw [ih db n a hnd, List.map_cons, List.sum_cons, hcontrib]
          omega
      · rename_i hs
        have hsf : o.storedInGridFS = false := by simpa using hs
        have hrefs : outputBlobRefs (o :: os) = outputBlobRefs os := by
          simp [outputBlobRefs, List.filterMap_cons, hsf]
        rw [hrefs] at hnd
        have hcontrib : outputContribution db o = 0 := by
          simp [outputContribution, hsf]
        rw [ih db n a hnd, List.map_cons, List.sum_cons, hcontrib]
        omega

theorem deleteFileCompletely_state (f : FileRecord) (db : DB) :
    (deleteFileCompletely f db).1.records = db.records.filter (·._id != f._id) ∧
    (deleteFileCompletely f db).1.failingBlobIds = db.failingBlobIds ∧
    (deleteFileCompletely f db).1.gridfsAvailable = db.gridfsAvailable ∧
    (∀ g, g ∈ (deleteFileCompletely f db).1.gridfsFiles → g ∈ db.gridfsFiles) := by
  cases hin : f.gridfsInputFileId with
  | none =>
      simp only [deleteFileCompletely, hin]
      obtain ⟨hr, hf, hv, hm⟩ := deleteOutputBlobs_state f.outputFiles db 0 []
      exact ⟨by rw [hr], hf, hv, hm⟩
  | some bid =>
      cases hdel : deleteFromGridFS bid db with
      | ok db' =>
          obtain ⟨dr, df, dv, dfl⟩ := deleteFromGridFS_ok bid db db' hdel
          simp only [deleteFileCompletely, hin, hdel]
          obtain ⟨hr, hf, hv, hm⟩ :=
            deleteOutputBlobs_state f.outputFiles db' f.fileSize [⟨"input", f.originalName⟩]
          refine ⟨by rw [hr, dr], hf.trans df, hv.trans dv, fun g hg => ?_⟩
          have hmem := hm g hg
          rw [dfl] at hmem
          exact List.mem_of_mem_filter hmem
      | error e =>
          simp only [deleteFileCompletely, hin, hdel]
          obtain ⟨hr, hf, hv, hm⟩ := deleteOutputBlobs_state f.outputFiles db 0 []
          exact ⟨by rw [hr], hf, hv, hm⟩

theorem deleteFileCompletely_gone (f : FileRecord) (db : DB) :
    ∀ bid ∈ attemptedBlobRefs f, db.failingBlobIds.contains bid = false →
      ∀ g ∈ (deleteFileCompletely f db).1.gridfsFiles, g._id ≠ bid := by
  intro bid hbid hfail g
  cases hin : f.gridfsInputFileId with
  | none =>
      have hbid' : bid ∈ outputBlobRefs f.outputFiles := by
        simpa [attemptedBlobRefs, hin] using hbid
      simp only [deleteFileCompletely, hin]
      intro hg
      exact deleteOutputBlobs_gone _ db 0 [] bid hbid' hfail g hg
  | some b =>
      have hcases : bid = b ∨ bid ∈ outputBlobRefs f.outputFiles := by
        simpa [attemptedBlobRefs, hin] using hbid
      cases hdel : deleteFromGridFS b db with
      | ok db' =>
          obtain ⟨_, df, _, dfl⟩ := deleteFromGridFS_ok b db db' hdel
          simp only [deleteFileCompletely, hin, hdel]
          intro hg
          rcases hcases with hbb | hbtl
          · subst hbb
            have hmem := (deleteOutputBlobs_state f.outputFiles db' _ _).2.2.2 g hg
            rw [dfl] at hmem
            simpa using List.of_mem_filter hmem
          · exact deleteOutputBlobs_gone _ db' _ _ bid hbtl (df ▸ hfail) g hg
      | error e =>
          simp only [deleteFileCompletely, hin, hdel]
          intro hg
          rcases hcases with hbb | hbtl
          · subst hbb
            rcases deleteFromGridFS_error_cases bid db e hdel with hc | hp
            · rw [hfail] at hc
              exact absurd hc (by simp)
            · exact blobPresent_false_ne db bid hp g
                ((deleteOutputBlobs_state f.outputFiles db _ _).2.2.2 g hg)
          · exact deleteOutputBlobs_gone _ db _ _ bid hbtl hfail g hg

theorem deleteFileCompletely_freed (f : FileRecord) (db : DB)
    (hnd : (attemptedBlobRefs f).Nodup) :
    (deleteFileCompletely f db).2.deletedSize =
      inputContribution db f + (f.outputFiles.map (outputContribution db)).sum := by
  cases hin : f.gridfsInputFileId with
  | none =>
      have hnd' : (outputBlobRefs f.outputFiles).Nodup := by
        simpa [attemptedBlobRefs, hin] using hnd
      simp only [deleteFileCompletely, hin]
      rw [deleteOutputBlobs_freed _ _ _ _ hnd']
      simp [inputContribution, hin]
  | some bid =>
      have hsplit : attemptedBlobRefs f = bid :: outputBlobRefs f.outputFiles := by
        simp [attemptedBlobRefs, hin]
      rw [hsplit] at hnd
      have hbnotin : bid ∉ outputBlobRefs f.outputFiles := (List.nodup_cons.mp hnd).1
      have hndtl : (outputBlobRefs f.outputFiles).Nodup := (List.nodup_cons.mp hnd).2
      cases hdel : deleteFromGridFS bid db with
      | ok db' =>
          obtain ⟨hnf, hpres⟩ := deleteFromGridFS_ok_conditions bid db db' hdel
          obtain ⟨_, df, _, dfl⟩ := deleteFromGridFS_ok bid db db' hdel
          simp only [deleteFileCompletely, hin, hdel]
          rw [deleteOutputBlobs_freed _ _ _ _ hndtl]
          have hmapeq : f.outputFiles.map (outputContribution db') =
              f.outputFiles.map (outputContribution db) := by
            apply List.map_congr_left
            intro o' ho'
            apply outputContribution_delete_ne db db' bid dfl df o'
            intro b' hstored' hid' hbb
            exact hbnotin (hbb ▸ List.mem_filterMap.mpr
              ⟨o', ho', by simp [hstored', hid']⟩)
          have hnf2 : bid ∉ db.failingBlobIds := by simpa using hnf
          have hic : inputContribution db f = f.fileSize := by
            simp [inputContribution, hin, hnf2, hpres]
          rw [hmapeq, hic]
      | error e =>
          simp only [deleteFileCompletely, hin, hdel]
          rw [deleteOutputBlobs_freed _ _ _ _ hndtl]
          have hic : inputContribution db f = 0 := by
            rcases deleteFromGridFS_error_cases bid db e hdel with hc | hp
            · have hc2 : bid ∈ db.failingBlobIds := by simpa using hc
              simp [inputContribution, hin, hc2]
            · simp [inputContribution, hin, hp]
          rw [hic]

theorem deleteFileCompletely_retry (f : FileRecord) (db : DB)
    (hnd : (attemptedBlobRefs f).Nodup) :
    (deleteFileCompletely f (deleteFileCompletely f db).1).2.deletedSize = 0 := by
  rw [deleteFileCompletely_freed f (deleteFileCompletely f db).1 hnd]
  have hgone := deleteFileCompletely_gone f db
  have hfail1 : (deleteFileCompletely f db).1.failingBlobIds = db.failingBlobIds :=
    (deleteFileCompletely_state f db).2.1
  have key : ∀ bid ∈ attemptedBlobRefs f,
      (!((deleteFileCompletely f db).1.failingBlobIds.contains bid) &&
        blobPresent (deleteFileCompletely f db).1 bid) = false := by
    intro bid hbid
    cases hc : db.failingBlobIds.contains bid with
    | true =>
        rw [hfail1, hc]
        rfl
    | false =>
        have hpres : blobPresent (deleteFileCompletely f db).1 bid = false := by
          rw [blobPresent, List.any_eq_false]
          intro g hg
          simpa using hgone bid hbid hc g hg
        simp [hpres]
  have hic : inputContribution (deleteFileCompletely f db).1 f = 0 := by
    cases hi : f.gridfsInputFileId with
    | none => simp [inputContribution, hi]
    | some b =>
        have hb : b ∈ attemptedBlobRefs f := by simp [attemptedBlobRefs, hi]
        have hk := key b hb
        simp only [inputContribution, hi, hk]
        rfl
  have hoc : ∀ o ∈ f.outputFiles,
      outputContribution (deleteFileCompletely f db).1 o = 0 := by
    intro o ho
    cases hs : o.storedInGridFS with
    | false => simp [outputContribution, hs]
    | true =>
        cases hid : o.gridfsFileId with
        | none => simp [outputContribution, hs, hid]
        | some b =>
            have hb : b ∈ attemptedBlobRefs f := by
              unfold attemptedBlobRefs
              exact List.mem_append.mpr (.inr (List.mem_filterMap.mpr
                ⟨o, ho, by simp [hs, hid]⟩))
            have hk := key b hb
            simp only [outputContribution, hs, hid, hk]
            rfl
  rw [hic]
  have hsum : (f.outputFiles.map
      (outputContribution (deleteFileCompletely f db).1)).sum = 0 := by
    apply List.sum_eq_zero
    intro x hx
    obtain ⟨o, ho, rfl⟩ := List.mem_map.mp hx
    exact hoc o ho
  rw [hsum]

/-- C5: `deleteFileCompletely` attempts deletion of the input blob when a
reference exists and of every output blob flagged as stored (any such blob
that is deletable is gone afterwards, individual failures notwithstanding);
the record itself is always deleted; `deletedSize` counts only the blobs
whose deletion succeeded — already-gone or failing blobs contribute zero —
and re-running the operation on the resulting state frees zero bytes, so it
is safe to retry. -/
theorem deleteFileCompletely_spec (f : FileRecord) (db : DB)
    (hnd : (attemptedBlobRefs f).Nodup) :
    (deleteFileCompletely f db).1.records = db.records.filter (·._id != f._id) ∧
    (∀ bid ∈ attemptedBlobRefs f, db.failingBlobIds.contains bid = false →
      ∀ g ∈ (deleteFileCompletely f db).1.gridfsFiles, g._id ≠ bid) ∧
    (deleteFileCompletely f db).2.deletedSize =
      inputContribution db f + (f.outputFiles.map (outputContribution db)).sum ∧
    (deleteFileCompletely f (deleteFileCompletely f db).1).2.deletedSize = 0 :=
  ⟨(deleteFileCompletely_state f db).1, deleteFileCompletely_gone f db,
    deleteFileCompletely_freed f db hnd, deleteFileCompletely_retry f db hnd⟩

/-- A record referencing an input blob, one stored output blob, and one
stored output blob that is already gone from the bucket. -/
def retryRecord : FileRecord :=
  { _id := 7, originalName := "m.pdf", fileSize := 30, status := .failed
    gridfsInputFileId := some 1
    outputFiles := [⟨"m.epub", 10, some 2, true⟩, ⟨"m.txt", 99, some 3, true⟩]
    uploadedBy := 4, createdAt := 50, processingStartedAt := none }

/-- The store for the C5 witness: blobs 1 and 2 exist, blob 3 (an output
reference of `retryRecord`) is already gone. -/
def retryDB : DB :=
  { gridfsFiles := [⟨1, "in", 30⟩, ⟨2, "out", 10⟩]
    records := [retryRecord,
      { _id := 8, originalName := "other", fileSize := 1, status := .completed
        gridfsInputFileId := none, outputFiles := [], uploadedBy := 4
        createdAt := 60, processingStartedAt := none }]
    failingBlobIds := [], gridfsAvailable := true }

/-- Witness for C5: on `retryDB` the freed bytes count the two present
blobs only (30 + 10, the missing 99-byte output contributes zero), the
record is gone, and the retry frees zero. -/
theorem deleteFileCompletely_spec_witness :
    (attemptedBlobRefs retryRecord).Nodup ∧
    ((deleteFileCompletely retryRecord retryDB).1.records =
        retryDB.records.filter (·._id != retryRecord._id) ∧
      (∀ bid ∈ attemptedBlobRefs retryRecord,
        retryDB.failingBlobIds.contains bid = false →
        ∀ g ∈ (deleteFileCompletely retryRecord retryDB).1.gridfsFiles, g._id ≠ bid) ∧
      (deleteFileCompletely retryRecord retryDB).2.deletedSize =
        inputContribution retryDB retryRecord +
          (retryRecord.outputFiles.map (outputContribution retryDB)).sum ∧
      (deleteFileCompletely retryRecord
          (deleteFileCompletely retryRecord retryDB).1).2.deletedSize = 0) ∧
    (deleteFileCompletely retryRecord retryDB).2.deletedSize = 40 :=
  ⟨by decide, deleteFileCompletely_spec retryRecord retryDB (by decide), by decide⟩

/-! ## C6 — orphan scan deletes exactly the unreferenced blobs -/

theorem orphanLoop_clean (gs : List GridFSFile) (db : DB) (c f : Nat)
    (hmem : ∀ g ∈ gs, g ∈ db.gridfsFiles)
    (hnd : (gs.map (·._id)).Nodup)
    (hfail : ∀ g ∈ gs, db.failingBlobIds.contains g._id = false) :
    (orphanLoop gs db c f).1.gridfsFiles =
      db.gridfsFiles.filter (fun x => !((gs.map (·._id)).contains x._id)) ∧
    (orphanLoop gs db c f).2.1 = c + gs.length ∧
    (orphanLoop gs db c f).2.2 = f + (gs.map (·.length)).sum := by
  induction gs generalizing db c f with
  | nil =>
      refine ⟨?_, by simp [orphanLoop], by simp [orphanLoop]⟩
      simp [orphanLoop]
  | cons g gs ih =>
      have hgdb : g ∈ db.gridfsFiles := hmem g (List.mem_cons_self g gs)
      have hpres : db.gridfsFiles.any (·._id == g._id) = true :=
        List.any_eq_true.mpr ⟨g, hgdb, by simp⟩
      have hgf : db.failingBlobIds.contains g._id = false :=
        hfail g (List.mem_cons_self g gs)
      have hdel : deleteFromGridFS g._id db =
          .ok { db with gridfsFiles := db.gridfsFiles.filter (·._id != g._id) } := by
        unfold deleteFromGridFS
        rw [if_neg (Bool.eq_false_iff.mp hgf), if_pos hpres]
      have hnotin : g._id ∉ gs.map (·._id) := (List.nodup_cons.mp hnd).1
      have hndtl : (gs.map (·._id)).Nodup := (List.nodup_cons.mp hnd).2
      unfold orphanLoop
      rw [hdel]
      set db' : DB := { db with gridfsFiles := db.gridfsFiles.filter (·._id != g._id) }
      have hmem' : ∀ x ∈ gs, x ∈ db'.gridfsFiles := by
        intro x hx
        have hxid : x._id ≠ g._id := by
          intro hEq
          exact hnotin (hEq ▸ List.mem_map_of_mem (·._id) hx)
        exact List.mem_filter.mpr ⟨hmem x (List.mem_cons_of_mem g hx), by simpa using hxid⟩
      have hfail' : ∀ x ∈ gs, db'.failingBlobIds.contains x._id = false := fun x hx =>
        hfail x (List.mem_cons_of_mem g hx)
      obtain ⟨i1, i2, i3⟩ := ih db' (c + 1) (f + g.length) hmem' hndtl hfail'
      refine ⟨?_, by rw [i2, List.length_cons]; omega,
        by rw [i3, List.map_cons, List.sum_cons]; omega⟩
      rw [i1]
      show (db.gridfsFiles.filter (·._id != g._id)).filter
          (fun x => !((gs.map (·._id)).contains x._id)) = _
      rw [List.filter_filter]
      apply List.filter_congr
      intro x _
      by_cases hxg : x._id = g._id <;> simp [hxg]

/-- C6: with no infrastructure failures, `cleanupOrphanedGridFSFiles`
deletes exactly the store blobs whose id is absent from the set of blob
references held by the `File` records (input plus outputs): the surviving
bucket is the referenced blobs, `deletedCount` and `freedSize` count the
unreferenced ones, and an immediately repeated run deletes zero blobs and
leaves the state unchanged. -/
theorem cleanupOrphanedGridFSFiles_spec (db : DB)
    (hA : db.gridfsAvailable = true)
    (hnd : (db.gridfsFiles.map (·._id)).Nodup)
    (hfail : ∀ g ∈ db.gridfsFiles, db.failingBlobIds.contains g._id = false) :
    ∃ db' res, cleanupOrphanedGridFSFiles db = .ok (db', res) ∧
      db'.gridfsFiles = db.gridfsFiles.filter
        (fun g => (referencedGridFSIds db.records).contains g._id) ∧
      res.deletedCount = (db.gridfsFiles.filter
        (fun g => !((referencedGridFSIds db.records).contains g._id))).length ∧
      res.freedSize = ((db.gridfsFiles.filter
        (fun g => !((referencedGridFSIds db.records).contains g._id))).map (·.length)).sum ∧
      ∃ db'' res2, cleanupOrphanedGridFSFiles db' = .ok (db'', res2) ∧
        res2.deletedCount = 0 ∧ db'' = db' := by
  have hmem : ∀ g ∈ db.gridfsFiles.filter
      (fun g => !((referencedGridFSIds db.records).contains g._id)), g ∈ db.gridfsFiles :=
    fun g hg => List.mem_of_mem_filter hg
  have hndo : ((db.gridfsFiles.filter
      (fun g => !((referencedGridFSIds db.records).contains g._id))).map (·._id)).Nodup :=
    ((List.filter_sublist _).map _).nodup hnd
  have hfo : ∀ g ∈ db.gridfsFiles.filter
      (fun g => !((referencedGridFSIds db.records).contains g._id)),
      db.failingBlobIds.contains g._id = false :=
    fun g hg => hfail g (hmem g hg)
  obtain ⟨h1, h2, h3⟩ := orphanLoop_clean _ db 0 0 hmem hndo hfo
  obtain ⟨hr, hf, hv⟩ := orphanLoop_records (db.gridfsFiles.filter
    (fun g => !((referencedGridFSIds db.records).contains g._id))) db 0 0
  have hrun : cleanupOrphanedGridFSFiles db = .ok
      ((orphanLoop (db.gridfsFiles.filter
        (fun g => !((referencedGridFSIds db.records).contains g._id))) db 0 0).1,
      { success := true
        message := s!"Cleaned up {(orphanLoop (db.gridfsFiles.filter
          (fun g => !((referencedGridFSIds db.records).contains g._id))) db 0 0).2.1} orphaned GridFS files"
        deletedCount := (orphanLoop (db.gridfsFiles.filter
          (fun g => !((referencedGridFSIds db.records).contains g._id))) db 0 0).2.1
        freedSize := (orphanLoop (db.gridfsFiles.filter
          (fun g => !((referencedGridFSIds db.records).contains g._id))) db 0 0).2.2 }) := by
    unfold cleanupOrphanedGridFSFiles
    rw [if_pos hA]
  have hinj := List.inj_on_of_nodup_map hnd
  have hfiles : (orphanLoop (db.gridfsFiles.filter
      (fun g => !((referencedGridFSIds db.records).contains g._id))) db 0 0).1.gridfsFiles =
      db.gridfsFiles.filter (fun g => (referencedGridFSIds db.records).contains g._id) := by
    rw [h1]
    apply List.filter_congr
    intro x hx
    by_cases hrx : (referencedGridFSIds db.records).contains x._id = true
    · rw [hrx]
      have hnotin : x._id ∉ (db.gridfsFiles.filter
          (fun g => !((referencedGridFSIds db.records).contains g._id))).map (·._id) := by
        intro hin
        obtain ⟨y, hy, hyx⟩ := List.mem_map.mp hin
        have hyo := List.of_mem_filter hy
        have hyeq : y = x := hinj (List.mem_of_mem_filter hy) hx hyx
        rw [hyeq, hrx] at hyo
        simp at hyo
      have hcf : ((db.gridfsFiles.filter
          (fun g => !((referencedGridFSIds db.records).contains g._id))).map
            (·._id)).contains x._id = false := by
        simpa using hnotin
      rw [hcf]
      rfl
    · have hrx' : (referencedGridFSIds db.records).contains x._id = false :=
        Bool.eq_false_iff.mpr hrx
      rw [hrx']
      have hxo : x ∈ db.gridfsFiles.filter
          (fun g => !((referencedGridFSIds db.records).contains g._id)) :=
        List.mem_filter.mpr ⟨hx, by simpa using hrx'⟩
      have hins : ((db.gridfsFiles.filter
          (fun g => !((referencedGridFSIds db.records).contains g._id))).map
            (·._id)).contains x._id = true := by
        simpa using List.mem_map_of_mem (·._id) hxo
      rw [hins]
      rfl
  refine ⟨_, _, hrun, hfiles, h2.trans (Nat.zero_add _), h3.trans (Nat.zero_add _), ?_⟩
  have hA' : (orphanLoop (db.gridfsFiles.filter
      (fun g => !((referencedGridFSIds db.records).contains g._id))) db 0 0).1.gridfsAvailable = true :=
    hv.trans hA
  have hrecs : (orphanLoop (db.gridfsFiles.filter
      (fun g => !((referencedGridFSIds db.records).contains g._id))) db 0 0).1.records = db.records := hr
  have horph2 : (orphanLoop (db.gridfsFiles.filter
      (fun g => !((referencedGridFSIds db.records).contains g._id))) db 0 0).1.gridfsFiles.filter
      (fun g => !((referencedGridFSIds ((orphanLoop (db.gridfsFiles.filter
        (fun g => !((referencedGridFSIds db.records).contains g._id))) db 0 0).1.records)).contains g._id)) = [] := by
    rw [hrecs, hfiles, List.filter_filter]
    have hff : ∀ a ∈ db.gridfsFiles,
        (!((referencedGridFSIds db.records).contains a._id) &&
          (referencedGridFSIds db.records).contains a._id) = false := by
      intro a _
      cases (referencedGridFSIds db.records).contains a._id <;> rfl
    rw [List.filter_congr hff]
    simp
  refine ⟨(orphanLoop (db.gridfsFiles.filter
      (fun g => !((referencedGridFSIds db.records).contains g._id))) db 0 0).1,
    { success := true, message := "Cleaned up 0 orphaned GridFS files"
      deletedCount := 0, freedSize := 0 }, ?_, rfl, rfl⟩
  unfold cleanupOrphanedGridFSFiles
  rw [if_pos hA']
  simp only [horph2]
  simp [orphanLoop]
  rfl

/-- A bucket with 5 blobs of which records reference exactly 2 (blob 1 as an
input, blob 4 as an output). -/
def fiveBlobDB : DB :=
  { gridfsFiles := [⟨1, "a", 10⟩, ⟨2, "b", 20⟩, ⟨3, "c", 30⟩, ⟨4, "d", 40⟩, ⟨5, "e", 50⟩]
    records := [{ _id := 100, originalName := "kept", fileSize := 10
                  status := .completed, gridfsInputFileId := some 1
                  outputFiles := [⟨"out", 40, some 4, true⟩], uploadedBy := 2
                  createdAt := 11, processingStartedAt := none }]
    failingBlobIds := [], gridfsAvailable := true }

/-- Witness for C6: on `fiveBlobDB` the orphan scan deletes exactly the 3
unreferenced blobs, and running it again deletes zero. -/
theorem cleanupOrphanedGridFSFiles_spec_witness :
    (∃ db' res, cleanupOrphanedGridFSFiles fiveBlobDB = .ok (db', res) ∧
      db'.gridfsFiles = fiveBlobDB.gridfsFiles.filter
        (fun g => (referencedGridFSIds fiveBlobDB.records).contains g._id) ∧
      res.deletedCount = (fiveBlobDB.gridfsFiles.filter
        (fun g => !((referencedGridFSIds fiveBlobDB.records).contains g._id))).length ∧
      res.freedSize = ((fiveBlobDB.gridfsFiles.filter
        (fun g => !((referencedGridFSIds fiveBlobDB.records).contains g._id))).map (·.length)).sum ∧
      ∃ db'' res2, cleanupOrphanedGridFSFiles db' = .ok (db'', res2) ∧
        res2.deletedCount = 0 ∧ db'' = db') ∧
    (fiveBlobDB.gridfsFiles.filter
      (fun g => !((referencedGridFSIds fiveBlobDB.records).contains g._id))).length = 3 :=
  ⟨cleanupOrphanedGridFSFiles_spec fiveBlobDB rfl (by decide) (by decide), by decide⟩

/-! ## C7 — bulk delete: partial success -/

theorem any_recId_filter (l : List FileRecord) (i j : Nat) (hne : j ≠ i) :
    (l.filter (fun r => r._id != i)).any (fun r => r._id == j) =
      l.any (fun r => r._id == j) := by
  induction l with
  | nil => rfl
  | cons r l ih =>
      cases hrj : (r._id == j) with
      | false =>
          cases hri : (r._id != i) <;>
            simp [List.filter_cons, List.any_cons, hrj, hri, ih]
      | true =>
          have hid : r._id = j := by simpa using hrj
          have hri : (r._id != i) = true := by
            simp [hid, bne_iff_ne]
            exact hne
          simp [List.filter_cons, List.any_cons, hri, hrj]

theorem deleteFilesLoop_spec (ids : List Nat) (db : DB)
    (dels : List DeleteResult) (errs : List (Nat × String)) (total : Nat)
    (hnd : ids.Nodup) :
    ∃ newDels,
      (deleteFilesLoop ids db dels errs total).2.1 = dels ++ newDels ∧
      newDels.map (·.fileId) = ids.filter (fun i => db.records.any (·._id == i)) ∧
      (deleteFilesLoop ids db dels errs total).2.2.1 = errs ++
        (ids.filter (fun i => !(db.records.any (·._id == i)))).map
          (fun i => (i, "File not found")) ∧
      (deleteFilesLoop ids db dels errs total).2.2.2 =
        total + (newDels.map (·.deletedSize)).sum ∧
      (deleteFilesLoop ids db dels errs total).1.records =
        db.records.filter (fun r => !(ids.contains r._id)) ∧
      (deleteFilesLoop ids db dels errs total).1.failingBlobIds = db.failingBlobIds ∧
      (deleteFilesLoop ids db dels errs total).1.gridfsAvailable = db.gridfsAvailable := by
  induction ids generalizing db dels errs total with
  | nil =>
      refine ⟨[], by simp [deleteFilesLoop], rfl, by simp [deleteFilesLoop], ?_, ?_, rfl, rfl⟩
      · simp [deleteFilesLoop]
      · simp [deleteFilesLoop]
  | cons i rest ih =>
      have hinotin : i ∉ rest := (List.nodup_cons.mp hnd).1
      have hndtl : rest.Nodup := (List.nodup_cons.mp hnd).2
      unfold deleteFilesLoop
      cases hfind : findById i db with
      | none =>
          have hnorec : ∀ r ∈ db.records, (r._id == i) = false := by
            intro r hr
            have := List.find?_eq_none.mp hfind r hr
            simpa using this
          have hpres : db.records.any (·._id == i) = false :=
            List.any_eq_false.mpr (by
              intro r hr
              simp [hnorec r hr])
          simp only [hfind]
          obtain ⟨nd, e1, e2, e3, e4, e5, e6, e7⟩ := ih db dels (errs ++ [(i, "File not found")]) total hndtl
          refine ⟨nd, e1, ?_, ?_, e4, ?_, e6, e7⟩
          · rw [e2, List.filter_cons]
            simp [hpres]
          · rw [e3, List.filter_cons]
            simp [hpres, List.append_assoc]
          · rw [e5]
            apply List.filter_congr
            intro r hr
            have hri : (r._id == i) = false := hnorec r hr
            have : r._id ≠ i := by simpa using hri
            simp [List.contains_cons, this]
      | some f =>
          have hfid : f._id = i := by
            have := List.find?_some hfind
            simpa using this
          have hfmem : f ∈ db.records := List.mem_of_find?_eq_some hfind
          have hpres : db.records.any (·._id == i) = true :=
            List.any_eq_true.mpr ⟨f, hfmem, by simp [hfid]⟩
          simp only [hfind]
          obtain ⟨hrecs, hflags, havail, _⟩ := deleteFileCompletely_state f db
          obtain ⟨nd, e1, e2, e3, e4, e5, e6, e7⟩ :=
            ih (deleteFileCompletely f db).1 (dels ++ [(deleteFileCompletely f db).2])
              errs (total + (deleteFileCompletely f db).2.deletedSize) hndtl
          have hanyeq : ∀ j ∈ rest, ((deleteFileCompletely f db).1.records.any (·._id == j)) =
              (db.records.any (·._id == j)) := by
            intro j hj
            have hji : j ≠ i := fun hEq => hinotin (hEq ▸ hj)
            rw [hrecs, hfid]
            exact any_recId_filter db.records i j hji
          refine ⟨(deleteFileCompletely f db).2 :: nd, by rw [e1]; simp, ?_, ?_, ?_, ?_,
            e6.trans hflags, e7.trans havail⟩
          · rw [List.map_cons, e2, List.filter_cons]
            have : (deleteFileCompletely f db).2.fileId = f._id := rfl
            rw [this, hfid]
            simp [hpres]
            exact List.filter_congr (fun j hj => hanyeq j hj)
          · rw [e3, List.filter_cons]
            have hfc : (rest.filter
                (fun j => !((deleteFileCompletely f db).1.records.any (·._id == j)))) =
                rest.filter (fun j => !(db.records.any (·._id == j))) :=
              List.filter_congr (fun j hj => by rw [hanyeq j hj])
            simp [hpres, hfc]
          · rw [e4, List.map_cons, List.sum_cons]
            omega
          · rw [e5, hrecs, List.filter_filter]
            apply List.filter_congr
            intro r hr
            by_cases hri : r._id = i
            · simp [List.contains_cons, hri, hfid]
            · simp [List.contains_cons, hri, hfid, bne_iff_ne, Ne.symm]

/-- C7: for every non-empty duplicate-free id list, per-id failures never
abort the bulk delete: ids with no record are reported as "File not found"
errors, ids with a record are deleted completely and reported as successes,
`totalFreedSize` is the sum of the freed bytes of the successes only, and
none of the requested ids survives in the record store. -/
theorem deleteMultipleFiles_partial_success (L : StorageLimits)
    (fileIds : List Nat) (db : DB) (hA : db.gridfsAvailable = true)
    (hne : fileIds ≠ []) (hnd : fileIds.Nodup) :
    ∃ db' dels errs total stats,
      deleteMultipleFiles L fileIds db = (db', .ok dels errs total stats) ∧
      errs = (fileIds.filter (fun i => !(db.records.any (·._id == i)))).map
        (fun i => (i, "File not found")) ∧
      dels.map (·.fileId) = fileIds.filter (fun i => db.records.any (·._id == i)) ∧
      total = (dels.map (·.deletedSize)).sum ∧
      (∀ i ∈ fileIds, ∀ r ∈ db'.records, r._id ≠ i) := by
  have hempty : fileIds.isEmpty = false := by
    cases fileIds with
    | nil => exact absurd rfl hne
    | cons a l => rfl
  obtain ⟨nd, e1, e2, e3, e4, e5, e6, e7⟩ := deleteFilesLoop_spec fileIds db [] [] 0 hnd
  have hA' : (deleteFilesLoop fileIds db [] [] 0).1.gridfsAvailable = true :=
    e7.trans hA
  have hst : getStorageStats L (deleteFilesLoop fileIds db [] [] 0).1 = .ok
      { totalSize := totalGridFSSize (deleteFilesLoop fileIds db [] [] 0).1
        usagePercent := toFixed2 ((totalGridFSSize (deleteFilesLoop fileIds db [] [] 0).1 : ℚ) /
          (L.MAX_STORAGE : ℚ) * 100)
        fileCount := (deleteFilesLoop fileIds db [] [] 0).1.gridfsFiles.length
        available := (L.MAX_STORAGE : Int) -
          (totalGridFSSize (deleteFilesLoop fileIds db [] [] 0).1 : Int)
        status := getStorageStatus L ((totalGridFSSize (deleteFilesLoop fileIds db [] [] 0).1 : ℚ) /
          (L.MAX_STORAGE : ℚ) * 100) } := by
    simp [getStorageStats, hA']
  have hrun : deleteMultipleFiles L fileIds db = ((deleteFilesLoop fileIds db [] [] 0).1,
      .ok (deleteFilesLoop fileIds db [] [] 0).2.1 (deleteFilesLoop fileIds db [] [] 0).2.2.1
        (deleteFilesLoop fileIds db [] [] 0).2.2.2
        { totalSize := totalGridFSSize (deleteFilesLoop fileIds db [] [] 0).1
          usagePercent := toFixed2 ((totalGridFSSize (deleteFilesLoop fileIds db [] [] 0).1 : ℚ) /
            (L.MAX_STORAGE : ℚ) * 100)
          fileCount := (deleteFilesLoop fileIds db [] [] 0).1.gridfsFiles.length
          available := (L.MAX_STORAGE : Int) -
            (totalGridFSSize (deleteFilesLoop fileIds db [] [] 0).1 : Int)
          status := getStorageStatus L ((totalGridFSSize (deleteFilesLoop fileIds db [] [] 0).1 : ℚ) /
            (L.MAX_STORAGE : ℚ) * 100) }) := by
    unfold deleteMultipleFiles
    rw [hempty]
    simp only [hst]
    rfl
  refine ⟨_, _, _, _, _, hrun, ?_, ?_, ?_, ?_⟩
  · rw [e3]
    simp
  · rw [e1]
    simpa using e2
  · rw [e4, e1]
    simp
  · intro i hi r hr
    rw [e5] at hr
    have hnc := List.of_mem_filter hr
    intro hEq
    rw [hEq] at hnc
    simp at hnc
    exact hnc hi

/-- Records 1 and 2 exist; id 5 does not — the claim's "one invalid id among
three" example. -/
def bulkDB : DB :=
  { gridfsFiles := [⟨11, "in1", 30⟩, ⟨12, "in2", 40⟩]
    records := [{ _id := 1, originalName := "f1", fileSize := 30, status := .completed
                  gridfsInputFileId := some 11, outputFiles := [], uploadedBy := 9
                  createdAt := 5, processingStartedAt := none },
                { _id := 2, originalName := "f2", fileSize := 40, status := .failed
                  gridfsInputFileId := some 12, outputFiles := [], uploadedBy := 9
                  createdAt := 6, processingStartedAt := none }]
    failingBlobIds := [], gridfsAvailable := true }

/-- Witness for C7 at ids `[1, 5, 2]`: the invalid id 5 yields the single
error, ids 1 and 2 succeed, and the freed total is the sum 30 + 40. -/
theorem deleteMultipleFiles_partial_success_witness :
    (∃ db' dels errs total stats,
      deleteMultipleFiles STORAGE_LIMITS [1, 5, 2] bulkDB = (db', .ok dels errs total stats) ∧
      errs = (([1, 5, 2] : List Nat).filter
        (fun i => !(bulkDB.records.any (·._id == i)))).map (fun i => (i, "File not found")) ∧
      dels.map (·.fileId) = ([1, 5, 2] : List Nat).filter
        (fun i => bulkDB.records.any (·._id == i)) ∧
      total = (dels.map (·.deletedSize)).sum ∧
      (∀ i ∈ ([1, 5, 2] : List Nat), ∀ r ∈ db'.records, r._id ≠ i)) ∧
    (([1, 5, 2] : List Nat).filter
      (fun i => !(bulkDB.records.any (·._id == i)))).map (fun i => (i, "File not found")) =
      [(5, "File not found")] ∧
    ([1, 5, 2] : List Nat).filter (fun i => bulkDB.records.any (·._id == i)) = [1, 2] :=
  ⟨deleteMultipleFiles_partial_success STORAGE_LIMITS [1, 5, 2] bulkDB rfl
      (by decide) (by decide), by decide, by decide⟩

/-! ## C10 — oldest-files default limit -/

theorem mem_insertByCreatedAt (f a : FileRecord) (l : List FileRecord) :
    a ∈ insertByCreatedAt f l ↔ a = f ∨ a ∈ l := by
  induction l with
  | nil => simp [insertByCreatedAt]
  | cons g gs ih =>
      unfold insertByCreatedAt
      split
      · simp [List.mem_cons]
      · simp only [List.mem_cons, ih]
        tauto

theorem mem_sortByCreatedAt (a : FileRecord) (l : List FileRecord) :
    a ∈ sortByCreatedAt l ↔ a ∈ l := by
  induction l with
  | nil => simp [sortByCreatedAt]
  | cons f fs ih => simp [sortByCreatedAt, mem_insertByCreatedAt, ih]

theorem pairwise_insertByCreatedAt (f : FileRecord) (l : List FileRecord)
    (h : l.Pairwise (fun a b => a.createdAt ≤ b.createdAt)) :
    (insertByCreatedAt f l).Pairwise (fun a b => a.createdAt ≤ b.createdAt) := by
  induction l with
  | nil => simp [insertByCreatedAt]
  | cons g gs ih =>
      unfold insertByCreatedAt
      split
      · rename_i hle
        refine List.Pairwise.cons ?_ h
        intro b hb
        rcases List.mem_cons.mp hb with rfl | hb'
        · exact hle
        · exact le_trans hle ((List.pairwise_cons.mp h).1 b hb')
      · rename_i hgt
        have hle' : g.createdAt ≤ f.createdAt := le_of_not_le hgt
        obtain ⟨hg, hgs⟩ := List.pairwise_cons.mp h
        refine List.Pairwise.cons ?_ (ih hgs)
        intro b hb
        rcases (mem_insertByCreatedAt f b gs).mp hb with rfl | hb'
        · exact hle'
        · exact hg b hb'

theorem sortByCreatedAt_sorted (l : List FileRecord) :
    (sortByCreatedAt l).Pairwise (fun a b => a.createdAt ≤ b.createdAt) := by
  induction l with
  | nil => simp [sortByCreatedAt]
  | cons f fs ih => exact pairwise_insertByCreatedAt f _ ih

/-- C10: invoked without a numeric limit, the oldest-files query defaults to
50: `getOldestFilesList` computes the same response for a missing and for a
non-numeric `limit` parameter, its files are the summaries of
`getOldestFiles` at its default limit of 50, and what is returned is at most
the 50 oldest records by `createdAt` (sorted ascending, and no returned
record is younger than any omitted one). -/
theorem getOldestFiles_default_limit (db : DB) :
    getOldestFilesList none db = getOldestFilesList (some "abc") db ∧
    (getOldestFilesList none db).files = (getOldestFiles db).map summarizeOldest ∧
    getOldestFiles db = (sortByCreatedAt db.records).take 50 ∧
    (getOldestFiles db).length ≤ 50 ∧
    (getOldestFiles db).Pairwise (fun a b => a.createdAt ≤ b.createdAt) ∧
    (∀ x ∈ getOldestFiles db, ∀ y ∈ db.records, y ∉ getOldestFiles db →
      x.createdAt ≤ y.createdAt) := by
  refine ⟨rfl, rfl, rfl, List.length_take_le _ _, ?_, ?_⟩
  · exact (sortByCreatedAt_sorted db.records).sublist (List.take_sublist _ _)
  · intro x hx y hy hynot
    have hysort : y ∈ sortByCreatedAt db.records := (mem_sortByCreatedAt y _).mpr hy
    have hsplit := List.take_append_drop 50 (sortByCreatedAt db.records)
    have hpw := sortByCreatedAt_sorted db.records
    rw [← hsplit] at hpw hysort
    have hydrop : y ∈ (sortByCreatedAt db.records).drop 50 := by
      rcases List.mem_append.mp hysort with h | h
      · exact absurd h hynot
      · exact h
    exact (List.pairwise_append.mp hpw).2.2 x hx y hydrop

/-- A record collection for the C10 witness. -/
def oldestDB : DB :=
  { gridfsFiles := []
    records := [{ _id := 1, originalName := "new", fileSize := 3, status := .completed
                  gridfsInputFileId := none, outputFiles := [], uploadedBy := 1
                  createdAt := 90, processingStartedAt := none },
                { _id := 2, originalName := "old", fileSize := 4, status := .uploaded
                  gridfsInputFileId := none, outputFiles := [], uploadedBy := 1
                  createdAt := 10, processingStartedAt := none }]
    failingBlobIds := [], gridfsAvailable := true }

/-- Witness for C10 at a concrete record collection, checking also that the
handler orders the two records oldest-first. -/
theorem getOldestFiles_default_limit_witness :
    (getOldestFilesList none oldestDB = getOldestFilesList (some "abc") oldestDB ∧
      (getOldestFilesList none oldestDB).files =
        (getOldestFiles oldestDB).map summarizeOldest ∧
      getOldestFiles oldestDB = (sortByCreatedAt oldestDB.records).take 50 ∧
      (getOldestFiles oldestDB).length ≤ 50 ∧
      (getOldestFiles oldestDB).Pairwise (fun a b => a.createdAt ≤ b.createdAt) ∧
      (∀ x ∈ getOldestFiles oldestDB, ∀ y ∈ oldestDB.records,
        y ∉ getOldestFiles oldestDB → x.createdAt ≤ y.createdAt)) ∧
    (getOldestFilesList none oldestDB).files.map (·._id) = [2, 1] :=
  ⟨getOldestFiles_default_limit oldestDB, by decide⟩

/-! ## C1 — two-phase reclamation order -/

theorem cleanupLoop_spec (s : ℚ) (fs : List FileRecord) (db : DB) (fr : Nat)
    (acc : List DeleteResult) :
    ∃ p rest dels,
      fs = p ++ rest ∧
      (cleanupLoop s fs db fr acc).2.2 = acc ++ dels ∧
      dels.map (·.fileId) = p.map (·._id) ∧
      dels.map (·.createdAt) = p.map (·.createdAt) ∧
      (cleanupLoop s fs db fr acc).2.1 = fr + (dels.map (·.deletedSize)).sum ∧
      (((cleanupLoop s fs db fr acc).2.1 : ℚ) < s → rest = []) ∧
      (∀ r, r ∈ (cleanupLoop s fs db fr acc).1.records → r ∈ db.records) := by
  induction fs generalizing db fr acc with
  | nil =>
      refine ⟨[], [], [], rfl, by simp [cleanupLoop], rfl, rfl, by simp [cleanupLoop],
        fun _ => rfl, fun r hr => ?_⟩
      simpa [cleanupLoop] using hr
  | cons f fs ih =>
      unfold cleanupLoop
      split
      · rename_i hbr
        refine ⟨[], f :: fs, [], rfl, by simp, rfl, rfl, by simp, fun hlt => ?_,
          fun r hr => hr⟩
        exact absurd hlt (not_lt.mpr hbr)
      · rename_i hnb
        obtain ⟨p', rest', dels', i1, i2, i3, i4, i5, i6, i7⟩ :=
          ih (deleteFileCompletely f db).1 (fr + (deleteFileCompletely f db).2.deletedSize)
            (acc ++ [(deleteFileCompletely f db).2])
        refine ⟨f :: p', rest', (deleteFileCompletely f db).2 :: dels',
          by rw [i1]; rfl, ?_, ?_, ?_, ?_, i6, ?_⟩
        · rw [i2]
          simp
        · rw [List.map_cons, i3, List.map_cons]
          rfl
        · rw [List.map_cons, i4, List.map_cons]
          rfl
        · rw [i5, List.map_cons, List.sum_cons]
          omega
        · intro r hr
          have hmem := i7 r hr
          rw [(deleteFileCompletely_state f db).1] at hmem
          exact List.mem_of_mem_filter hmem

theorem isCleanupCandidate_iff (cutoff : Nat) (f : FileRecord) :
    isCleanupCandidate cutoff f = true ↔
      (f.status = .failed ∨ (f.status = .uploaded ∧ f.createdAt < cutoff) ∨
        (f.status = .processing ∧ ∃ t, f.processingStartedAt = some t ∧ t < cutoff)) := by
  unfold isCleanupCandidate
  cases hs : f.status <;> cases hp : f.processingStartedAt <;> simp [hs, hp]

theorem natCast_sum_deletedSize (l : List DeleteResult) :
    (((l.map (·.deletedSize)).sum : Nat) : ℚ) =
      (l.map (fun x => (x.deletedSize : ℚ))).sum := by
  induction l with
  | nil => simp
  | cons a l ih => simp [List.map_cons, List.sum_cons, Nat.cast_add, ih]

theorem except_bind_ok {α β : Type} (x : Except String α) (f : α → Except String β)
    (b : β) (h : Except.bind x f = .ok b) : ∃ a, x = .ok a ∧ f a = .ok b := by
  cases x with
  | ok a => exact ⟨a, rfl, h⟩
  | error e => exact absurd h (by simp [Except.bind])

theorem getStorageStats_ok_totalSize (L : StorageLimits) (db : DB)
    (s : StorageStats) (h : getStorageStats L db = .ok s) :
    s.totalSize = totalGridFSSize db := by
  unfold getStorageStats at h
  split at h
  · injection h with h
    rw [← h]
  · exact absurd h (by simp)

/-- C1: whenever `performAutoCleanup` returns, its deleted-records list
splits as Phase-1 deletions followed by Phase-2 deletions: every Phase-1
deletion is of a record that was `failed`, stale-`uploaded` or
stuck-`processing`; every Phase-2 deletion is of a `completed` record
(taken oldest-`createdAt`-first); and if any completed record was deleted
at all, then every Phase-1 candidate had already been deleted in Phase 1
and the bytes freed by Phase 1 were still short of the bytes-to-free
target. -/
theorem performAutoCleanup_phase_order (L : StorageLimits) (tp : ℚ) (now : Nat)
    (db db' : DB) (r : CleanupResult)
    (h : performAutoCleanup L tp now db = .ok (db', r)) :
    ∃ d1 d2, r.deletedFiles = d1 ++ d2 ∧
      (∀ x ∈ d1, ∃ rec, rec ∈ db.records ∧ x.fileId = rec._id ∧
        (rec.status = .failed ∨
          (rec.status = .uploaded ∧ rec.createdAt < now - thirtyDaysMs) ∨
          (rec.status = .processing ∧ ∃ t, rec.processingStartedAt = some t ∧
            t < now - thirtyDaysMs))) ∧
      (∀ x ∈ d2, ∃ rec, rec ∈ db.records ∧ x.fileId = rec._id ∧
        rec.status = .completed) ∧
      (d2 ≠ [] → ∀ rec ∈ getCleanupCandidates now db, rec._id ∈ d1.map (·.fileId)) ∧
      (d2 ≠ [] → ((d1.map (·.deletedSize)).sum : ℚ) <
        (totalGridFSSize db : ℚ) - (L.MAX_STORAGE : ℚ) * tp) ∧
      (d2.map (·.createdAt)).Pairwise (· ≤ ·) := by
  unfold performAutoCleanup at h
  simp only [Bind.bind] at h
  obtain ⟨st0, hst0, h⟩ := except_bind_ok _ _ _ h
  have hts : st0.totalSize = totalGridFSSize db := getStorageStats_ok_totalSize L db st0 hst0
  split at h
  · -- already below target: nothing deleted
    simp only [pure, Except.pure, Except.ok.injEq, Prod.mk.injEq] at h
    obtain ⟨hdb, hr⟩ := h
    refine ⟨[], [], ?_, by simp, by simp, fun hne => absurd rfl hne,
      fun hne => absurd rfl hne, by simp⟩
    rw [← hr]
    rfl
  · rename_i hpos
    obtain ⟨fs2, hfs2, h⟩ := except_bind_ok _ _ _ h
    simp only [pure, Except.pure, Except.ok.injEq, Prod.mk.injEq] at h
    obtain ⟨hdb', hr⟩ := h
    obtain ⟨p1, rest1, dels1, i1, i2, i3, i4, i5, i6, i7⟩ :=
      cleanupLoop_spec ((st0.totalSize : ℚ) - (L.MAX_STORAGE : ℚ) * tp)
        (getCleanupCandidates now db) db 0 []
    have hd1 : ∀ x ∈ dels1, ∃ rec, rec ∈ db.records ∧ x.fileId = rec._id ∧
        (rec.status = .failed ∨
          (rec.status = .uploaded ∧ rec.createdAt < now - thirtyDaysMs) ∨
          (rec.status = .processing ∧ ∃ t, rec.processingStartedAt = some t ∧
            t < now - thirtyDaysMs)) := by
      intro x hx
      have hid : x.fileId ∈ dels1.map (·.fileId) := List.mem_map_of_mem _ hx
      rw [i3] at hid
      obtain ⟨rec, hrecp, hrid⟩ := List.mem_map.mp hid
      have hreccand : rec ∈ getCleanupCandidates now db := by
        rw [i1]
        exact List.mem_append_left _ hrecp
      have hrec2 := (mem_sortByCreatedAt rec _).mp hreccand
      exact ⟨rec, List.mem_of_mem_filter hrec2, hrid.symm,
        (isCleanupCandidate_iff _ rec).mp (List.of_mem_filter hrec2)⟩
    by_cases hp2 : ((cleanupLoop ((st0.totalSize : ℚ) - (L.MAX_STORAGE : ℚ) * tp)
        (getCleanupCandidates now db) db 0 []).2.1 : ℚ) <
        (st0.totalSize : ℚ) - (L.MAX_STORAGE : ℚ) * tp
    · rw [if_pos hp2] at hr
      obtain ⟨p2, rest2, dels2, j1, j2, j3, j4, j5, j6, j7⟩ :=
        cleanupLoop_spec ((st0.totalSize : ℚ) - (L.MAX_STORAGE : ℚ) * tp)
          ((sortByCreatedAt ((cleanupLoop ((st0.totalSize : ℚ) - (L.MAX_STORAGE : ℚ) * tp)
            (getCleanupCandidates now db) db 0 []).1.records.filter
              (·.status == .completed))).take 100)
          (cleanupLoop ((st0.totalSize : ℚ) - (L.MAX_STORAGE : ℚ) * tp)
            (getCleanupCandidates now db) db 0 []).1
          (cleanupLoop ((st0.totalSize : ℚ) - (L.MAX_STORAGE : ℚ) * tp)
            (getCleanupCandidates now db) db 0 []).2.1
          (cleanupLoop ((st0.totalSize : ℚ) - (L.MAX_STORAGE : ℚ) * tp)
            (getCleanupCandidates now db) db 0 []).2.2
      refine ⟨dels1, dels2, ?_, hd1, ?_, ?_, ?_, ?_⟩
      · rw [← hr]
        show _ = dels1 ++ dels2
        rw [j2, i2]
        simp
      · intro x hx
        have hid : x.fileId ∈ dels2.map (·.fileId) := List.mem_map_of_mem _ hx
        rw [j3] at hid
        obtain ⟨rec, hrecp, hrid⟩ := List.mem_map.mp hid
        have hrecold : rec ∈ (sortByCreatedAt ((cleanupLoop
            ((st0.totalSize : ℚ) - (L.MAX_STORAGE : ℚ) * tp)
            (getCleanupCandidates now db) db 0 []).1.records.filter
              (·.status == .completed))).take 100 := by
          rw [j1]
          exact List.mem_append_left _ hrecp
        have hrecsort := List.mem_of_mem_take hrecold
        have hrecfil := (mem_sortByCreatedAt rec _).mp hrecsort
        have hrecp1 := List.mem_of_mem_filter hrecfil
        have hcomp : rec.status = .completed := by
          have := List.of_mem_filter hrecfil
          simpa using this
        exact ⟨rec, i7 rec hrecp1, hrid.symm, hcomp⟩
      · intro _
        have hrest1 : rest1 = [] := i6 hp2
        intro rec hrec
        rw [i1, hrest1, List.append_nil] at hrec
        rw [i3]
        exact List.mem_map_of_mem _ hrec
      · intro _
        have hsum : (cleanupLoop ((st0.totalSize : ℚ) - (L.MAX_STORAGE : ℚ) * tp)
            (getCleanupCandidates now db) db 0 []).2.1 =
            (dels1.map (·.deletedSize)).sum := i5.trans (Nat.zero_add _)
        rw [hsum] at hp2
        rw [hts] at hp2
        rw [natCast_sum_deletedSize dels1] at hp2
        exact hp2
      · have hpw : ((sortByCreatedAt ((cleanupLoop
            ((st0.totalSize : ℚ) - (L.MAX_STORAGE : ℚ) * tp)
            (getCleanupCandidates now db) db 0 []).1.records.filter
              (·.status == .completed))).take 100).Pairwise
            (fun a b => a.createdAt ≤ b.createdAt) :=
          (sortByCreatedAt_sorted _).sublist (List.take_sublist _ _)
        have hp2pw : p2.Pairwise (fun a b => a.createdAt ≤ b.createdAt) := by
          refine hpw.sublist ?_
          rw [j1]
          exact List.sublist_append_left p2 rest2
        have : (p2.map (·.createdAt)).Pairwise (· ≤ ·) := List.pairwise_map.mpr hp2pw
        rw [← j4] at this
        exact this
    · rw [if_neg hp2] at hr
      refine ⟨dels1, [], ?_, hd1, by simp, fun hne => absurd rfl hne,
        fun hne => absurd rfl hne, by simp⟩
      rw [← hr]
      show _ = dels1 ++ []
      rw [i2]
      simp

/-- Witness fixtures for the reclamation run: one failed record and two
completed ones, in a 100-byte store holding 100 bytes. -/
def reclaimRec1 : FileRecord :=
  { _id := 1, originalName := "f1", fileSize := 30, status := .failed
    gridfsInputFileId := some 11, outputFiles := [], uploadedBy := 7
    createdAt := 5, processingStartedAt := none }

def reclaimRec2 : FileRecord :=
  { _id := 2, originalName := "f2", fileSize := 40, status := .completed
    gridfsInputFileId := some 12, outputFiles := [⟨"o2", 10, some 22, true⟩]
    uploadedBy := 7, createdAt := 3, processingStartedAt := none }

def reclaimRec3 : FileRecord :=
  { _id := 3, originalName := "f3", fileSize := 20, status := .completed
    gridfsInputFileId := some 13, outputFiles := [], uploadedBy := 7
    createdAt := 9, processingStartedAt := none }

def reclaimDB : DB :=
  { gridfsFiles := [⟨11, "b11", 30⟩, ⟨12, "b12", 40⟩, ⟨22, "b22", 10⟩, ⟨13, "b13", 20⟩]
    records := [reclaimRec1, reclaimRec2, reclaimRec3]
    failingBlobIds := [], gridfsAvailable := true }

def reclaimLimits : StorageLimits :=
  { MAX_STORAGE := 100, WARNING_THRESHOLD := 85 / 100
    CLEANUP_THRESHOLD := 90 / 100, CRITICAL_THRESHOLD := 95 / 100
    TARGET_AFTER_CLEANUP := 70 / 100 }

/-- Witness for C1: reclaiming to 10% on `reclaimDB` runs both phases —
the failed record first, then the completed ones oldest-first — and the
phase-order decomposition holds of the result. -/
theorem performAutoCleanup_phase_order_witness :
    ∃ d1 d2,
      ({ success := true, message := "Cleanup completed. Deleted 3 files."
         initialStats := { totalSize := 100, usagePercent := 100, fileCount := 4
                           available := 0, status := "critical" }
         finalStats := { totalSize := 0, usagePercent := 0, fileCount := 0
                         available := 100, status := "normal" }
         deletedFiles := [
           { fileId := 1, fileName := "f1", deletedSize := 30
             deletedFiles := [⟨"input", "f1"⟩], createdAt := 5 },
           { fileId := 2, fileName := "f2", deletedSize := 50
             deletedFiles := [⟨"input", "f2"⟩, ⟨"output", "o2"⟩], createdAt := 3 },
           { fileId := 3, fileName := "f3", deletedSize := 20
             deletedFiles := [⟨"input", "f3"⟩], createdAt := 9 }]
         freedSize := some 100 } : CleanupResult).deletedFiles = d1 ++ d2 ∧
      (∀ x ∈ d1, ∃ rec, rec ∈ reclaimDB.records ∧ x.fileId = rec._id ∧
        (rec.status = .failed ∨
          (rec.status = .uploaded ∧ rec.createdAt < 100 - thirtyDaysMs) ∨
          (rec.status = .processing ∧ ∃ t, rec.processingStartedAt = some t ∧
            t < 100 - thirtyDaysMs))) ∧
      (∀ x ∈ d2, ∃ rec, rec ∈ reclaimDB.records ∧ x.fileId = rec._id ∧
        rec.status = .completed) ∧
      (d2 ≠ [] → ∀ rec ∈ getCleanupCandidates 100 reclaimDB,
        rec._id ∈ d1.map (·.fileId)) ∧
      (d2 ≠ [] → ((d1.map (·.deletedSize)).sum : ℚ) <
        (totalGridFSSize reclaimDB : ℚ) - (reclaimLimits.MAX_STORAGE : ℚ) * (1 / 10)) ∧
      (d2.map (·.createdAt)).Pairwise (· ≤ ·) :=
  performAutoCleanup_phase_order reclaimLimits (1 / 10) 100 reclaimDB
    { gridfsFiles := [], records := [], failingBlobIds := [], gridfsAvailable := true }
    _ (by
    norm_num [performAutoCleanup, getStorageStats, getStorageStatus, toFixed2,
      totalGridFSSize, getCleanupCandidates, isCleanupCandidate, thirtyDaysMs,
      sortByCreatedAt, insertByCreatedAt, cleanupLoop, deleteFileCompletely,
      deleteOutputBlobs, deleteFromGridFS, Bind.bind, Except.bind, pure,
      Except.pure, reclaimDB, reclaimLimits, reclaimRec1, reclaimRec2, reclaimRec3]
    exact rfl)
